import Mathlib

/-!
# mt7915 firmware coredump: capture and assembly (`mt7915/coredump.c`)

A shallow embedding of `src/mt7915/coredump.c`.

* Machine integers are `Nat` with explicit reduction modulo `2 ^ w`.
* Sizes, field widths, character-array lengths and register addresses that are
  declared in headers outside the translated file (`coredump.h`, `regs.h`,
  `mt76.h`) are carried in the parameter structures `Abi` and `RegMap`.
* Pointers are `Option`: `none` is `NULL`.
-/

namespace Mt7915

/-! ## Machine arithmetic -/

/-- Reduction of a value to a `u32`. -/
def u32 (x : Nat) : Nat := x % 2 ^ 32

/-- Conversion of an unsigned value to `int` (32 bit, two's complement), the
conversion performed by `return size;` in a function returning `int`. -/
def to_int (x : Nat) : Int :=
  if x % 2 ^ 32 < 2 ^ 31 then ((x % 2 ^ 32 : Nat) : Int)
  else ((x % 2 ^ 32 : Nat) : Int) - 2 ^ 32

/-- Conversion of an `int` to an unsigned type of `w` bits, the conversion
performed by the assignment of an `int` to a `size_t`. -/
def of_int (w : Nat) (x : Int) : Nat := (x % (2 ^ w : Nat)).toNat

/-- Kernel macro `GENMASK(h, l)`: the bits `l` to `h`, both included. -/
def GENMASK (h l : Nat) : Nat := 2 ^ (h + 1) - 2 ^ l

/-- Kernel macro `BIT(n)`. -/
def BIT (n : Nat) : Nat := 2 ^ n

/-- Number of zero bits below the lowest set bit, searched over `fuel` bits. -/
def ctz : Nat → Nat → Nat
  | 0, _ => 0
  | fuel + 1, m => if m % 2 = 1 then 0 else 1 + ctz fuel (m / 2)

/-- Kernel macro `__bf_shf(mask)`: position of the lowest set bit of a mask. -/
def bf_shf (mask : Nat) : Nat := ctz 64 mask

/-- Kernel macro `FIELD_GET(mask, reg)`. -/
def FIELD_GET (mask reg : Nat) : Nat := (reg &&& mask) >>> bf_shf mask

/-- Kernel macro `FIELD_PREP(mask, val)`. -/
def FIELD_PREP (mask val : Nat) : Nat := (val <<< bf_shf mask) &&& mask

/-- Kernel macro `ALIGN(x, a)` for a power of two `a`, computed in an unsigned
type of `w` bits: `(x + (a - 1)) & ~(a - 1)`. -/
def ALIGN (w x a : Nat) : Nat :=
  ((x + (a - 1)) % 2 ^ w) &&& (2 ^ w - 1 - (a - 1))

/-! ## Parameters declared outside the translated file -/

/-- Sizes fixed by the C target and by `coredump.h`. -/
structure Abi where
  /-- width of `size_t` in bits -/
  size_bits : Nat
  /-- the size `sizeof(struct mt7915_mem_hdr)` -/
  sizeof_mem_hdr : Nat
  /-- the size `sizeof(struct mt7915_coredump)` -/
  sizeof_coredump : Nat
  /-- the size `sizeof(struct mt7915_coredump_mem)`, also the offset of its `data` -/
  sizeof_coredump_mem : Nat
  /-- width in bits of the members `len` and `hdr_len` of the dump -/
  len_bits : Nat
  /-- width in bits of the member `len` of `struct mt7915_coredump_mem` -/
  mem_len_bits : Nat
  sizeof_magic : Nat
  sizeof_kernel : Nat
  sizeof_fw_ver : Nat
  sizeof_fw_type : Nat
  sizeof_fw_patch_date : Nat
  /-- the size `sizeof(mdev->wm_hdr->build_date)` -/
  sizeof_wm_build_date : Nat
  /-- the size `sizeof(mdev->wa_hdr->build_date)` -/
  sizeof_wa_build_date : Nat
  sizeof_fw_state : Nat
  sizeof_trace_sched : Nat
  /-- the size `sizeof(dump->sched)` -/
  sizeof_sched : Nat
  sizeof_trace_irq : Nat
  /-- the size `sizeof(dump->irq)` -/
  sizeof_irq : Nat
  sizeof_task_qid : Nat
  sizeof_task_info : Nat
  sizeof_fw_context : Nat

/-! ## Region catalog -/

/-- Modelled from the spec: the RAM-image type `WM` of `enum` `MT76_RAM_TYPE_*`
(declared outside the translated file), the first of the two types. -/
def MT76_RAM_TYPE_WM : Nat := 0

/-- Modelled from the spec: the RAM-image type `WA`, the second of the two
types. -/
def MT76_RAM_TYPE_WA : Nat := 1

/-- Modelled from the spec: `__MT76_RAM_TYPE_MAX`, the number of RAM-image
types (the dump holds build dates for two RAM types). -/
def MT76_RAM_TYPE_MAX : Nat := 2

/-- The `struct mt7915_mem_region`. -/
structure mt7915_mem_region where
  start : Nat
  len : Nat
  name : String
  deriving DecidableEq, Repr

def mt7915_mem_regions : List mt7915_mem_region :=
  [ { start := 0xe003b400, len := 0x00003bff, name := "CRAM" } ]

def mt7916_mem_regions : List mt7915_mem_region :=
  [ { start := 0x00800000, len := 0x0005ffff, name := "ROM" },
    { start := 0x00900000, len := 0x00013fff, name := "ULM1" },
    { start := 0x02200000, len := 0x0004ffff, name := "ULM2" },
    { start := 0x02300000, len := 0x0004ffff, name := "ULM3" },
    { start := 0x00400000, len := 0x00027fff, name := "SRAM" },
    { start := 0xe0000000, len := 0x00157fff, name := "CRAM" } ]

def mt7986_mem_regions : List mt7915_mem_region :=
  [ { start := 0x00800000, len := 0x0005ffff, name := "ROM" },
    { start := 0x00900000, len := 0x0000ffff, name := "ULM1" },
    { start := 0x02200000, len := 0x0004ffff, name := "ULM2" },
    { start := 0x02300000, len := 0x0004ffff, name := "ULM3" },
    { start := 0x00400000, len := 0x00017fff, name := "SRAM" },
    { start := 0xe0000000, len := 0x00113fff, name := "CRAM" } ]

/-- The function `mt7915_coredump_get_mem_layout`; `chip` is `mt76_chip(&dev->mt76)`.
The result `some regions` stands for the pointer to the first region together
with `*num = regions.length`; `none` is `NULL` (and `*num` is not written). -/
def mt7915_coredump_get_mem_layout (chip type : Nat) : Option (List mt7915_mem_region) :=
  if type = MT76_RAM_TYPE_WA then none
  else if chip = 0x7915 then some mt7915_mem_regions
  else if chip = 0x7986 then some mt7986_mem_regions
  else if chip = 0x7916 then some mt7916_mem_regions
  else none

/-- The loop `for (i = 0; i < num; i++) { size += mem_region->len; mem_region++; }`
of `mt7915_coredump_get_mem_size`, with `size` a `size_t`. -/
def sum_region_len (A : Abi) : List mt7915_mem_region → Nat → Nat
  | [], size => size
  | r :: rest, size => sum_region_len A rest ((size + r.len) % 2 ^ A.size_bits)

/-- The function `mt7915_coredump_get_mem_size`. -/
def mt7915_coredump_get_mem_size (A : Abi) (chip type : Nat) : Int :=
  match mt7915_coredump_get_mem_layout chip type with
  | none => 0
  | some mem_region =>
    let num := mem_region.length
    let size := sum_region_len A mem_region 0
    /- reserve space for the headers -/
    let size := (size + (num * A.sizeof_mem_hdr) % 2 ^ A.size_bits) % 2 ^ A.size_bits
    /- make sure it is aligned 4 bytes for debug message print out -/
    let size := ALIGN A.size_bits size 4
    to_int size


/-! ## Register-access collaborator -/

/-- Register addresses and field masks of `regs.h` used by the translated file. -/
structure RegMap where
  MT_FW_EXCEPT_TYPE : Nat
  MT_FW_ASSERT_STAT : Nat
  MT_FW_EXCEPT_COUNT : Nat
  MT_FW_LAST_MSG_ID : Nat
  MT_FW_EINT_INFO : Nat
  MT_FW_SCHED_INFO : Nat
  MT_CONN_DBG_CTL_LOG_SEL : Nat
  /-- a field mask -/
  MT_CONN_DBG_CTL_PC_LOG_SEL : Nat
  MT_CONN_DBG_CTL_PC_LOG : Nat
  MT_MCU_WM_EXCP_PC_CTRL : Nat
  /-- a field mask -/
  MT_MCU_WM_EXCP_PC_CTRL_IDX_STATUS : Nat
  MT_MCU_WM_EXCP_PC_LOG : Nat
  MT_MCU_WM_EXCP_LR_CTRL : Nat
  /-- a field mask -/
  MT_MCU_WM_EXCP_LR_CTRL_IDX_STATUS : Nat
  MT_MCU_WM_EXCP_LR_LOG : Nat
  MT_FW_TASK_QID1 : Nat
  MT_FW_TASK_QID2 : Nat
  MT_FW_TASK_START : Nat
  MT_FW_TASK_END : Nat
  MT_FW_TASK_SIZE : Nat
  MT_FW_CIRQ_COUNT : Nat
  MT_FW_CIRQ_IDX : Nat
  MT_FW_CIRQ_LISR : Nat
  MT_FW_TASK_IDX : Nat
  MT_FW_TASK_ID : Nat

/-- The destination array of a block read. -/
inductive DumpBuf where
  | sched
  | irq
  deriving DecidableEq, Repr

/-- One access to the device, or one delay, as the translated file issues it. -/
inductive BusOp where
  /-- a call `mt76_rr(dev, offset)` -/
  | rr (offset : Nat)
  /-- a call `mt76_wr(dev, offset, val)` -/
  | wr (offset val : Nat)
  /-- a call `mt7915_memcpy_fromio(dev, buf, offset, len)` -/
  | memcpy_fromio (buf : DumpBuf) (offset len : Nat)
  /-- a call `usleep_range(min, max)` -/
  | usleep_range (min max : Nat)
  deriving DecidableEq, Repr

/-- The device as the translated file sees it: the hardware identifier, the
contents of the 32-bit registers by address, the bytes a block read returns by
offset and length, and the accesses made so far, oldest first. -/
structure Dev where
  chip : Nat
  reg : Nat → Nat
  io : Nat → Nat → List Nat
  log : List BusOp

/-- Modelled from the spec: `mt76_chip`, the hardware identifier. -/
def mt76_chip (dev : Dev) : Nat := dev.chip

/-- Modelled from the spec: `is_mt7915`, the earliest hardware variant, whose
identifier is 0x7915. -/
def is_mt7915 (dev : Dev) : Bool := mt76_chip dev == 0x7915

/-- Modelled from the spec: `mt76_rr`, "read 32-bit register". -/
def mt76_rr (dev : Dev) (offset : Nat) : Nat × Dev :=
  (u32 (dev.reg offset), { dev with log := dev.log ++ [BusOp.rr offset] })

/-- Modelled from the spec: `mt76_wr`, "write register". -/
def mt76_wr (dev : Dev) (offset val : Nat) : Dev :=
  { dev with
    reg := fun a => if a = offset then u32 val else dev.reg a
    log := dev.log ++ [BusOp.wr offset (u32 val)] }

/-- Modelled from the spec: `mt76_rmw`, "modify register field": the bits of
`mask` are cleared, the bits of `val` are set, and the word is written back. -/
def mt76_rmw (dev : Dev) (offset mask val : Nat) : Nat × Dev :=
  let (cur, dev) := mt76_rr dev offset
  let val := val ||| (cur &&& (2 ^ 32 - 1 - u32 mask))
  (u32 val, mt76_wr dev offset val)

/-- Modelled from the spec: `mt76_get_field`, "read field". -/
def mt76_get_field (dev : Dev) (offset field : Nat) : Nat × Dev :=
  let (v, dev) := mt76_rr dev offset
  (FIELD_GET field v, dev)

/-- Modelled from the spec: `mt76_rmw_field`. -/
def mt76_rmw_field (dev : Dev) (offset field val : Nat) : Nat × Dev :=
  mt76_rmw dev offset field (FIELD_PREP field val)

/-- Modelled from the spec: `mt76_set`, "set bits". -/
def mt76_set (dev : Dev) (offset val : Nat) : Nat × Dev := mt76_rmw dev offset 0 val

/-- Modelled from the spec: `mt76_clear`, "clear bits". -/
def mt76_clear (dev : Dev) (offset val : Nat) : Nat × Dev := mt76_rmw dev offset val 0

/-- Modelled from the spec: `mt7915_memcpy_fromio`, "read block of bytes from
device memory"; the bytes read are returned, to be stored at the start of `buf`. -/
def mt7915_memcpy_fromio (dev : Dev) (buf : DumpBuf) (offset len : Nat) : List Nat × Dev :=
  (dev.io offset len, { dev with log := dev.log ++ [BusOp.memcpy_fromio buf offset len] })

/-- The delay `usleep_range(min, max)`. -/
def usleep_range (dev : Dev) (min max : Nat) : Dev :=
  { dev with log := dev.log ++ [BusOp.usleep_range min max] }

/-- Kernel function `strscpy(dest, src, size)` on C strings: at most `size - 1`
characters of `src` are stored, and nothing is stored when `size` is 0. -/
def strscpy (dest src : String) (size : Nat) : String :=
  if size = 0 then dest else String.mk (src.data.take (size - 1))

/-! ## The dump -/

/-- The `struct mt7915_coredump`: the fixed header with the decoded state.
Character arrays are C strings; `sched` and `irq` are kept as raw bytes. -/
structure mt7915_coredump where
  magic : String
  len : Nat
  hdr_len : Nat
  kernel : String
  fw_ver : String
  fw_type : String
  fw_patch_date : String
  fw_ram_date : List String
  guid : Nat
  tv_sec : Int
  tv_nsec : Int
  device_id : Nat
  fw_state : String
  last_msg_id : Nat
  eint_info_idx : Nat
  irq_info_idx : Nat
  sched_info_idx : Nat
  trace_sched : String
  sched : List Nat
  trace_irq : String
  irq : List Nat
  pc_cur : List Nat
  pc_dbg_ctrl : Nat
  pc_cur_idx : Nat
  pc_stack : List Nat
  lr_dbg_ctrl : Nat
  lr_cur_idx : Nat
  lr_stack : List Nat
  task_qid : String
  taskq0_read : Nat
  taskq0_write : Nat
  taskq1_read : Nat
  taskq1_write : Nat
  task_info : String
  taski0_start : Nat
  taski0_end : Nat
  taski0_size : Nat
  taski1_start : Nat
  taski1_end : Nat
  taski1_size : Nat
  fw_context : String
  context_idx : Nat
  context_handler : Nat
  deriving DecidableEq, Repr

/-- The dump header as `vzalloc` returns it: every member zero. -/
def zero_dump (A : Abi) : mt7915_coredump :=
  { magic := "", len := 0, hdr_len := 0, kernel := "", fw_ver := "", fw_type := "",
    fw_patch_date := "", fw_ram_date := List.replicate MT76_RAM_TYPE_MAX "",
    guid := 0, tv_sec := 0, tv_nsec := 0, device_id := 0, fw_state := "",
    last_msg_id := 0, eint_info_idx := 0, irq_info_idx := 0, sched_info_idx := 0,
    trace_sched := "", sched := List.replicate A.sizeof_sched 0,
    trace_irq := "", irq := List.replicate A.sizeof_irq 0,
    pc_cur := List.replicate 10 0, pc_dbg_ctrl := 0, pc_cur_idx := 0,
    pc_stack := List.replicate 32 0, lr_dbg_ctrl := 0, lr_cur_idx := 0,
    lr_stack := List.replicate 32 0, task_qid := "",
    taskq0_read := 0, taskq0_write := 0, taskq1_read := 0, taskq1_write := 0,
    task_info := "", taski0_start := 0, taski0_end := 0, taski0_size := 0,
    taski1_start := 0, taski1_end := 0, taski1_size := 0,
    fw_context := "", context_idx := 0, context_handler := 0 }

/-! ## State extractor -/

/-- The function `mt7915_coredump_fw_state`. The last component of the result
is `*exception`, which keeps the value `exception` it had when nothing is
stored to it. -/
def mt7915_coredump_fw_state (A : Abi) (R : RegMap) (dev : Dev) (type : Nat)
    (dump : mt7915_coredump) (exception : Bool) : Dev × mt7915_coredump × Bool :=
  if type = MT76_RAM_TYPE_WA then (dev, dump, exception)
  else
    let (category, dev) := mt76_get_field dev R.MT_FW_EXCEPT_TYPE (GENMASK 7 0)
    let (state, dev) := mt76_get_field dev R.MT_FW_ASSERT_STAT (GENMASK 7 0)
    let (count, dev) :=
      if is_mt7915 dev then mt76_get_field dev R.MT_FW_EXCEPT_COUNT (GENMASK 15 8)
      else mt76_get_field dev R.MT_FW_EXCEPT_COUNT (GENMASK 7 0)
    /- normal mode: driver can manually trigger assert for detail info -/
    let dump :=
      if count = 0 then
        { dump with fw_state := strscpy dump.fw_state "normal" A.sizeof_fw_state }
      else if state > 1 ∧ count = 1 ∧ category = 5 then
        { dump with fw_state := strscpy dump.fw_state "assert" A.sizeof_fw_state }
      else if (state > 1 ∧ count = 1) ∨ count > 1 then
        { dump with fw_state := strscpy dump.fw_state "exception" A.sizeof_fw_state }
      else dump
    (dev, dump, decide (count ≠ 0))

/-- The slot numbers `y` used by the iterations of a sampling loop
`for (y = start, i = 0; i < n; i++, y++) { ...; y = y >= n ? 0 : y; }`
of `mt7915_coredump_fw_trace`, for `k` remaining iterations from slot `y`. -/
def ring_slots (n : Nat) : Nat → Nat → List Nat
  | 0, _ => []
  | k + 1, y => y :: ring_slots n k (u32 ((if y ≥ n then 0 else y) + 1))

/-- The scheduler sampling loop of `mt7915_coredump_fw_trace`, for `k`
remaining iterations (`k = n - i`) from slot `y`. -/
def sched_loop (A : Abi) (base n : Nat) : Nat → Nat → Dev → mt7915_coredump →
    Dev × mt7915_coredump
  | 0, _, dev, dump => (dev, dump)
  | k + 1, y, dev, dump =>
    let (bytes, dev) :=
      mt7915_memcpy_fromio dev DumpBuf.sched (u32 (base + 0xc + y * 12)) A.sizeof_sched
    let dump := { dump with sched := bytes }
    let y := if y ≥ n then 0 else y
    sched_loop A base n k (u32 (y + 1)) dev dump

/-- The interrupt sampling loop of `mt7915_coredump_fw_trace`, for `k`
remaining iterations (`k = n - i`) from slot `y`. -/
def irq_loop (A : Abi) (base n : Nat) : Nat → Nat → Dev → mt7915_coredump →
    Dev × mt7915_coredump
  | 0, _, dev, dump => (dev, dump)
  | k + 1, y, dev, dump =>
    let (bytes, dev) :=
      mt7915_memcpy_fromio dev DumpBuf.irq (u32 (base + 0x4 + y * 16)) A.sizeof_irq
    let dump := { dump with irq := bytes }
    let y := if y ≥ n then 0 else y
    irq_loop A base n k (u32 (y + 1)) dev dump

/-- The function `mt7915_coredump_fw_trace`. -/
def mt7915_coredump_fw_trace (A : Abi) (R : RegMap) (dev : Dev) (type : Nat)
    (dump : mt7915_coredump) (exception : Bool) : Dev × mt7915_coredump :=
  let base := R.MT_FW_EINT_INFO
  if type = MT76_RAM_TYPE_WA then (dev, dump)
  else
    /- trap or run? -/
    let (v, dev) := mt76_rr dev R.MT_FW_LAST_MSG_ID
    let dump := { dump with last_msg_id := v }
    let (n, dev) :=
      if is_mt7915 dev then mt76_get_field dev base (GENMASK 7 0)
      else mt76_get_field dev base (GENMASK 15 8)
    let dump := { dump with eint_info_idx := n }
    let (irq, dev) := mt76_rr dev (u32 (base + 0x8))
    let n := if is_mt7915 dev then FIELD_GET (GENMASK 7 0) irq
             else FIELD_GET (GENMASK 23 16) irq
    let dump := { dump with irq_info_idx := n }
    let (sch, dev) := mt76_rr dev R.MT_FW_SCHED_INFO
    let n := if is_mt7915 dev then FIELD_GET (GENMASK 7 0) sch
             else FIELD_GET (GENMASK 15 8) sch
    let dump := { dump with sched_info_idx := n }
    if exception then
      /- sched trace -/
      let n := if is_mt7915 dev then FIELD_GET (GENMASK 15 8) sch
               else FIELD_GET (GENMASK 7 0) sch
      let n := if n > 60 then 60 else n
      let dump := { dump with
        trace_sched := strscpy dump.trace_sched "(sched_info) id, time" A.sizeof_trace_sched }
      let (dev, dump) := sched_loop A base n n dump.sched_info_idx dev dump
      /- irq trace -/
      let n := if is_mt7915 dev then FIELD_GET (GENMASK 15 8) irq
               else FIELD_GET (GENMASK 7 0) irq
      let n := if n > 60 then 60 else n
      let dump := { dump with
        trace_irq := strscpy dump.trace_irq "(irq_info) id, time" A.sizeof_trace_irq }
      irq_loop A base n n dump.irq_info_idx dev dump
    else (dev, dump)


/-- The loop `for (i = 0; i < 10; i++)` of `mt7915_coredump_fw_stack` that
samples the current PC, for `k` remaining iterations from index `i`. -/
def pc_cur_loop (R : RegMap) : Nat → Nat → Dev → mt7915_coredump → Dev × mt7915_coredump
  | 0, _, dev, dump => (dev, dump)
  | k + 1, i, dev, dump =>
    let (v, dev) := mt76_rr dev R.MT_CONN_DBG_CTL_PC_LOG
    let dump := { dump with pc_cur := dump.pc_cur.set i v }
    let dev := usleep_range dev 100 500
    pc_cur_loop R k (i + 1) dev dump

/-- The loop `for (i = 0; i < 32; i++)` of `mt7915_coredump_fw_stack` that
reads the PC log, for `k` remaining iterations from index `i`. -/
def pc_stack_loop (R : RegMap) : Nat → Nat → Dev → mt7915_coredump → Dev × mt7915_coredump
  | 0, _, dev, dump => (dev, dump)
  | k + 1, i, dev, dump =>
    let reg := u32 (R.MT_MCU_WM_EXCP_PC_LOG + i * 4)
    let (v, dev) := mt76_rr dev reg
    let dump := { dump with pc_stack := dump.pc_stack.set i v }
    pc_stack_loop R k (i + 1) dev dump

/-- The loop `for (i = 0; i < 32; i++)` of `mt7915_coredump_fw_stack` that
reads the LR log, for `k` remaining iterations from index `i`. -/
def lr_stack_loop (R : RegMap) : Nat → Nat → Dev → mt7915_coredump → Dev × mt7915_coredump
  | 0, _, dev, dump => (dev, dump)
  | k + 1, i, dev, dump =>
    let reg := u32 (R.MT_MCU_WM_EXCP_LR_LOG + i * 4)
    let (v, dev) := mt76_rr dev reg
    let dump := { dump with lr_stack := dump.lr_stack.set i v }
    lr_stack_loop R k (i + 1) dev dump

/-- The function `mt7915_coredump_fw_stack`. -/
def mt7915_coredump_fw_stack (R : RegMap) (dev : Dev) (type : Nat)
    (dump : mt7915_coredump) (exception : Bool) : Dev × mt7915_coredump :=
  if type = MT76_RAM_TYPE_WA then (dev, dump)
  else
    /- read current PC -/
    let dev := (mt76_rmw_field dev R.MT_CONN_DBG_CTL_LOG_SEL
      R.MT_CONN_DBG_CTL_PC_LOG_SEL 0x22).2
    let (dev, dump) := pc_cur_loop R 10 0 dev dump
    /- stop call stack record -/
    let dev :=
      if !exception then
        let dev := (mt76_clear dev R.MT_MCU_WM_EXCP_PC_CTRL (BIT 0)).2
        (mt76_clear dev R.MT_MCU_WM_EXCP_LR_CTRL (BIT 0)).2
      else dev
    /- read PC log -/
    let (v, dev) := mt76_rr dev R.MT_MCU_WM_EXCP_PC_CTRL
    let dump := { dump with pc_dbg_ctrl := v }
    let dump := { dump with
      pc_cur_idx := FIELD_GET R.MT_MCU_WM_EXCP_PC_CTRL_IDX_STATUS dump.pc_dbg_ctrl }
    let (dev, dump) := pc_stack_loop R 32 0 dev dump
    /- read LR log -/
    let (v, dev) := mt76_rr dev R.MT_MCU_WM_EXCP_LR_CTRL
    let dump := { dump with lr_dbg_ctrl := v }
    let dump := { dump with
      lr_cur_idx := FIELD_GET R.MT_MCU_WM_EXCP_LR_CTRL_IDX_STATUS dump.lr_dbg_ctrl }
    let (dev, dump) := lr_stack_loop R 32 0 dev dump
    /- start call stack record -/
    let dev :=
      if !exception then
        let dev := (mt76_set dev R.MT_MCU_WM_EXCP_PC_CTRL (BIT 0)).2
        (mt76_set dev R.MT_MCU_WM_EXCP_LR_CTRL (BIT 0)).2
      else dev
    (dev, dump)

/-- The function `mt7915_coredump_fw_task`. -/
def mt7915_coredump_fw_task (A : Abi) (R : RegMap) (dev : Dev) (type : Nat)
    (dump : mt7915_coredump) : Dev × mt7915_coredump :=
  let offs := if is_mt7915 dev then 0xe0 else 0x170
  if type = MT76_RAM_TYPE_WA then (dev, dump)
  else
    let dump := { dump with
      task_qid := strscpy dump.task_qid "(task queue id) read, write" A.sizeof_task_qid }
    let (v, dev) := mt76_rr dev R.MT_FW_TASK_QID1
    let dump := { dump with taskq0_read := v }
    let (v, dev) := mt76_rr dev (u32 (R.MT_FW_TASK_QID1 + 2 ^ 32 - 4))
    let dump := { dump with taskq0_write := v }
    let (v, dev) := mt76_rr dev R.MT_FW_TASK_QID2
    let dump := { dump with taskq1_read := v }
    let (v, dev) := mt76_rr dev (u32 (R.MT_FW_TASK_QID2 + 2 ^ 32 - 4))
    let dump := { dump with taskq1_write := v }
    let dump := { dump with
      task_info := strscpy dump.task_info "(task stack) start, end, size" A.sizeof_task_info }
    let (v, dev) := mt76_rr dev R.MT_FW_TASK_START
    let dump := { dump with taski0_start := v }
    let (v, dev) := mt76_rr dev R.MT_FW_TASK_END
    let dump := { dump with taski0_end := v }
    let (v, dev) := mt76_rr dev R.MT_FW_TASK_SIZE
    let dump := { dump with taski0_size := v }
    let (v, dev) := mt76_rr dev (u32 (R.MT_FW_TASK_START + offs))
    let dump := { dump with taski1_start := v }
    let (v, dev) := mt76_rr dev (u32 (R.MT_FW_TASK_END + offs))
    let dump := { dump with taski1_end := v }
    let (v, dev) := mt76_rr dev (u32 (R.MT_FW_TASK_SIZE + offs))
    let dump := { dump with taski1_size := v }
    (dev, dump)

/-- The function `mt7915_coredump_fw_context`. -/
def mt7915_coredump_fw_context (A : Abi) (R : RegMap) (dev : Dev) (type : Nat)
    (dump : mt7915_coredump) : Dev × mt7915_coredump :=
  if type = MT76_RAM_TYPE_WA then (dev, dump)
  else
    let (count, dev) := mt76_rr dev R.MT_FW_CIRQ_COUNT
    /- current context -/
    if count = 0 then
      let dump := { dump with
        fw_context := strscpy dump.fw_context "(context) interrupt" A.sizeof_fw_context }
      let (idx, dev) :=
        if is_mt7915 dev then mt76_get_field dev R.MT_FW_CIRQ_IDX (GENMASK 31 16)
        else mt76_get_field dev R.MT_FW_CIRQ_IDX (GENMASK 15 0)
      let dump := { dump with context_idx := idx }
      let (v, dev) := mt76_rr dev R.MT_FW_CIRQ_LISR
      let dump := { dump with context_handler := v }
      (dev, dump)
    else
      let (idx, dev) := mt76_rr dev R.MT_FW_TASK_IDX
      let (id, dev) := mt76_rr dev R.MT_FW_TASK_ID
      if id = 0 ∧ idx = 3 then
        let dump := { dump with
          fw_context := strscpy dump.fw_context "(context) idle" A.sizeof_fw_context }
        (dev, dump)
      else if id ≠ 0 ∧ idx ≠ 3 then
        let dump := { dump with
          fw_context := strscpy dump.fw_context "(context) task" A.sizeof_fw_context }
        let dump := { dump with context_idx := idx }
        let dump := { dump with context_handler := id }
        (dev, dump)
      else (dev, dump)


/-! ## Crash-data store -/

/-- A run-time fault of the C program. -/
inductive Fault where
  /-- a `NULL` pointer is dereferenced -/
  | null_deref
  /-- a pointer to released or foreign memory is dereferenced -/
  | bad_deref
  /-- a pointer to memory that is not allocated is released -/
  | bad_free
  /-- an access goes past the end of an allocation -/
  | out_of_bounds
  deriving DecidableEq, Repr

/-- The `struct mt7915_crash_data`; `memdump_buf` is a pointer. -/
structure mt7915_crash_data where
  guid : Nat
  tv_sec : Int
  tv_nsec : Int
  memdump_buf : Option Nat
  memdump_buf_len : Nat
  deriving DecidableEq, Repr

/-- An allocation made with `vzalloc`. -/
inductive Obj where
  /-- a CrashData holder -/
  | crash_data (c : mt7915_crash_data)
  /-- a snapshot buffer with its bytes -/
  | buffer (bytes : List Nat)
  /-- the buffer of a dump of `size` bytes; its contents are kept in `Built` -/
  | dump (size : Nat)
  deriving DecidableEq, Repr

/-- The allocator: the live allocations by address, the next fresh address,
and for each coming call of `vzalloc`, in order, whether it fails (`true`);
when the list is used up every call succeeds. -/
structure Heap where
  objs : List (Nat × Obj)
  next : Nat
  oom : List Bool
  deriving DecidableEq, Repr

/-- Kernel function `vzalloc`: `none` is the `NULL` of a failed call. -/
def vzalloc (h : Heap) (obj : Obj) : Option Nat × Heap :=
  match h.oom with
  | true :: rest => (none, { h with oom := rest })
  | false :: rest =>
    (some h.next, { objs := (h.next, obj) :: h.objs, next := h.next + 1, oom := rest })
  | [] => (some h.next, { objs := (h.next, obj) :: h.objs, next := h.next + 1, oom := [] })

/-- Kernel function `vfree`: nothing is done for `NULL`. -/
def vfree (h : Heap) (p : Option Nat) : Except Fault Heap :=
  match p with
  | none => Except.ok h
  | some a =>
    match h.objs.lookup a with
    | some _ => Except.ok { h with objs := h.objs.filter (fun e => e.1 ≠ a) }
    | none => Except.error Fault.bad_free

/-- A read through a pointer to a `struct mt7915_crash_data`. -/
def load_crash_data (h : Heap) (p : Option Nat) : Except Fault mt7915_crash_data :=
  match p with
  | none => Except.error Fault.null_deref
  | some a =>
    match h.objs.lookup a with
    | some (Obj.crash_data c) => Except.ok c
    | _ => Except.error Fault.bad_deref

/-- A write through a pointer to a `struct mt7915_crash_data`. -/
def store_crash_data (h : Heap) (p : Option Nat) (c : mt7915_crash_data) :
    Except Fault Heap :=
  match p with
  | none => Except.error Fault.null_deref
  | some a =>
    match h.objs.lookup a with
    | some (Obj.crash_data _) =>
      Except.ok { h with
        objs := h.objs.map (fun e => if e.1 = a then (a, Obj.crash_data c) else e) }
    | _ => Except.error Fault.bad_deref

/-- A read of `n` bytes from the start of a snapshot buffer. -/
def load_bytes (h : Heap) (p : Option Nat) (n : Nat) : Except Fault (List Nat) :=
  match p with
  | none => Except.error Fault.null_deref
  | some a =>
    match h.objs.lookup a with
    | some (Obj.buffer bytes) =>
      if n ≤ bytes.length then Except.ok (bytes.take n) else Except.error Fault.out_of_bounds
    | _ => Except.error Fault.bad_deref

/-- The part of the driver state the translated file owns: the array
`dev->coredump.crash_data` of `__MT76_RAM_TYPE_MAX` pointers, and the allocator.
The array is read with `getD _ none`: an index past its end reads as `NULL`. -/
structure Coredump where
  crash_data : List (Option Nat)
  heap : Heap
  deriving DecidableEq, Repr

/-- A CrashData holder as `vzalloc` returns it. -/
def zero_crash_data : mt7915_crash_data :=
  { guid := 0, tv_sec := 0, tv_nsec := 0, memdump_buf := none, memdump_buf_len := 0 }

/-- The error number `ENOMEM`. -/
def ENOMEM : Int := 12

/-- The loop of `mt7915_coredump_register`, for `k` remaining iterations from
type `i`. The result is the value returned by the function when the loop
returns (`some`), or `none` when the loop runs to its end. -/
def register_loop (A : Abi) (chip : Nat) (coredump_memdump : Bool) :
    Nat → Nat → Coredump → Except Fault (Option Int × Coredump)
  | 0, _, s => Except.ok (none, s)
  | k + 1, i, s =>
    match vzalloc s.heap (Obj.crash_data zero_crash_data) with
    | (none, heap) => Except.ok (some (-ENOMEM), { s with heap := heap })
    | (some a, heap) => do
      let crash_data := some a
      let s : Coredump := { crash_data := s.crash_data.set i crash_data, heap := heap }
      if coredump_memdump then
        let c ← load_crash_data s.heap crash_data
        let c := { c with
          memdump_buf_len := of_int A.size_bits (mt7915_coredump_get_mem_size A chip i) }
        let heap ← store_crash_data s.heap crash_data c
        let s : Coredump := { s with heap := heap }
        if c.memdump_buf_len = 0 then
          /- no memory content -/
          Except.ok (some 0, s)
        else
          let (b, heap) := vzalloc s.heap (Obj.buffer (List.replicate c.memdump_buf_len 0))
          let c := { c with memdump_buf := b }
          let heap ← store_crash_data heap crash_data c
          match b with
          | none =>
            let heap ← vfree heap crash_data
            Except.ok (some (-ENOMEM), { s with heap := heap })
          | some _ => register_loop A chip coredump_memdump k (i + 1) { s with heap := heap }
      else register_loop A chip coredump_memdump k (i + 1) s

/-- The function `mt7915_coredump_register`. -/
def mt7915_coredump_register (A : Abi) (chip : Nat) (coredump_memdump : Bool)
    (s : Coredump) : Except Fault (Int × Coredump) := do
  let (r, s) ← register_loop A chip coredump_memdump MT76_RAM_TYPE_MAX 0 s
  match r with
  | some v => Except.ok (v, s)
  | none => Except.ok (0, s)

/-- The loop of `mt7915_coredump_unregister`, for `k` remaining iterations from
type `i`. -/
def unregister_loop : Nat → Nat → Coredump → Except Fault Coredump
  | 0, _, s => Except.ok s
  | k + 1, i, s => do
    let p := s.crash_data.getD i none
    let c ← load_crash_data s.heap p
    let heap ←
      if c.memdump_buf ≠ none then do
        let heap ← vfree s.heap c.memdump_buf
        let c ← load_crash_data heap p
        let heap ← store_crash_data heap p { c with memdump_buf := none }
        let c ← load_crash_data heap p
        store_crash_data heap p { c with memdump_buf_len := 0 }
      else Except.ok s.heap
    let heap ← vfree heap p
    unregister_loop k (i + 1) { crash_data := s.crash_data.set i none, heap := heap }

/-- The function `mt7915_coredump_unregister`. -/
def mt7915_coredump_unregister (s : Coredump) : Except Fault Coredump :=
  unregister_loop MT76_RAM_TYPE_MAX 0 s


/-! ## Dump assembler -/

/-- The strings `mt7915_coredump_build` reads from the kernel and from
`struct mt76_dev`. -/
structure Mdev where
  /-- the string `init_utsname()->release` -/
  release : String
  /-- the string `mdev->hw->wiphy->fw_version` -/
  fw_version : String
  /-- the string `mdev->patch_hdr->build_date` -/
  patch_build_date : String
  /-- the string `mdev->wm_hdr->build_date` -/
  wm_build_date : String
  /-- the string `mdev->wa_hdr->build_date` -/
  wa_build_date : String

/-- A store of `nbytes` bytes at byte offset `off` from the start `buf` of the
dump buffer. -/
structure Store where
  off : Nat
  nbytes : Nat
  deriving DecidableEq, Repr

/-- What `mt7915_coredump_build` leaves behind when it returns a dump. -/
structure Built where
  /-- the address `buf` of the buffer -/
  buf : Nat
  /-- the argument of `vzalloc`: the buffer has exactly this many bytes -/
  alloc : Nat
  /-- the header, written through `dump` -/
  dump : mt7915_coredump
  /-- the value stored to `dump_mem->len` -/
  mem_len : Nat
  /-- the bytes stored to `dump_mem->data` -/
  mem_data : List Nat
  /-- the stores made through `dump_mem`, oldest first -/
  mem_stores : List Store
  deriving DecidableEq, Repr

/-- The five calls of the state extractor in `mt7915_coredump_build`, in their
order; `exception0` is the indeterminate initial value of the local `exception`. -/
def build_fw_steps (A : Abi) (R : RegMap) (dev : Dev) (type : Nat) (dump : mt7915_coredump)
    (exception0 : Bool) : Dev × mt7915_coredump :=
  let (dev, dump, exception) := mt7915_coredump_fw_state A R dev type dump exception0
  let (dev, dump) := mt7915_coredump_fw_trace A R dev type dump exception
  let (dev, dump) := mt7915_coredump_fw_task A R dev type dump
  let (dev, dump) := mt7915_coredump_fw_context A R dev type dump
  mt7915_coredump_fw_stack R dev type dump exception

/-- The function `mt7915_coredump_build`. `coredump_memdump` is the module
parameter and `exception0` the indeterminate initial value of the local
`exception`. The result `none` is the `NULL` returned when `vzalloc` fails.
The mutex is not modelled. -/
def mt7915_coredump_build (A : Abi) (R : RegMap) (coredump_memdump : Bool) (mdev : Mdev)
    (s : Coredump) (dev : Dev) (type : Nat) (exception0 : Bool) :
    Except Fault (Option (Built × Dev) × Coredump) := do
  let crash_data := s.crash_data.getD type none
  let sofar := 0
  let hdr_len := A.sizeof_coredump % 2 ^ A.size_bits
  let len := hdr_len
  let c ← load_crash_data s.heap crash_data
  let len :=
    if coredump_memdump ∧ c.memdump_buf_len ≠ 0 then
      (len + (A.sizeof_coredump_mem + c.memdump_buf_len) % 2 ^ A.size_bits) % 2 ^ A.size_bits
    else len
  let sofar := (sofar + hdr_len) % 2 ^ A.size_bits
  /- this is going to get big when we start dumping memory and such,
     so go ahead and use vmalloc. -/
  match vzalloc s.heap (Obj.dump len) with
  | (none, heap) => Except.ok (none, { s with heap := heap })
  | (some buf, heap) =>
    let s : Coredump := { s with heap := heap }
    let dump := zero_dump A
    let dump := { dump with len := len % 2 ^ A.len_bits }
    let dump := { dump with hdr_len := hdr_len % 2 ^ A.len_bits }
    /- plain text -/
    let dump := { dump with magic := strscpy dump.magic "mt76-crash-dump" A.sizeof_magic }
    let dump := { dump with kernel := strscpy dump.kernel mdev.release A.sizeof_kernel }
    let dump := { dump with fw_ver := strscpy dump.fw_ver mdev.fw_version A.sizeof_fw_ver }
    let dump := { dump with
      fw_type := strscpy dump.fw_type (if type = MT76_RAM_TYPE_WA then "WA" else "WM")
        A.sizeof_fw_type }
    let dump := { dump with
      fw_patch_date := strscpy dump.fw_patch_date mdev.patch_build_date A.sizeof_fw_patch_date }
    let dump := { dump with
      fw_ram_date := dump.fw_ram_date.set MT76_RAM_TYPE_WM
        (strscpy (dump.fw_ram_date.getD MT76_RAM_TYPE_WM "") mdev.wm_build_date
          A.sizeof_wm_build_date) }
    let dump := { dump with
      fw_ram_date := dump.fw_ram_date.set MT76_RAM_TYPE_WA
        (strscpy (dump.fw_ram_date.getD MT76_RAM_TYPE_WA "") mdev.wa_build_date
          A.sizeof_wa_build_date) }
    let dump := { dump with guid := c.guid }
    let dump := { dump with tv_sec := c.tv_sec }
    let dump := { dump with tv_nsec := c.tv_nsec }
    let dump := { dump with device_id := mt76_chip dev }
    let (dev, dump) := build_fw_steps A R dev type dump exception0
    /- gather memory content -/
    let dump_mem := sofar
    let mem_len := c.memdump_buf_len % 2 ^ A.mem_len_bits
    let mem_stores := [({ off := dump_mem, nbytes := A.mem_len_bits / 8 } : Store)]
    if coredump_memdump ∧ c.memdump_buf_len ≠ 0 then
      let bytes ← load_bytes s.heap c.memdump_buf c.memdump_buf_len
      let mem_stores := mem_stores ++
        [({ off := dump_mem + A.sizeof_coredump_mem, nbytes := c.memdump_buf_len } : Store)]
      let built : Built :=
        { buf := buf, alloc := len, dump := dump, mem_len := mem_len, mem_data := bytes,
          mem_stores := mem_stores }
      Except.ok (some (built, dev), s)
    else
      let built : Built :=
        { buf := buf, alloc := len, dump := dump, mem_len := mem_len, mem_data := [],
          mem_stores := mem_stores }
      Except.ok (some (built, dev), s)


/-- The dump a call of `mt7915_coredump_build` returned, if it returned one. -/
def build_result (r : Except Fault (Option (Built × Dev) × Coredump)) : Option Built :=
  match r with
  | Except.ok (some (built, _), _) => some built
  | _ => none

/-! ## Properties of region catalogs -/

/-- Two regions share no address. -/
def regions_disjoint (a b : mt7915_mem_region) : Prop :=
  ∀ x, ¬ (a.start ≤ x ∧ x < a.start + a.len ∧ b.start ≤ x ∧ x < b.start + b.len)

/-- A catalog of `count` regions, pairwise sharing no address, none of which
runs past the end of the 32-bit address space. -/
def catalog_ok (regions : List mt7915_mem_region) (count : Nat) : Prop :=
  regions.length = count ∧ regions ≠ [] ∧ regions.Pairwise regions_disjoint ∧
    ∀ r ∈ regions, r.start + r.len < 2 ^ 32

/-! ## Properties of access logs -/

/-- Whether an access is a block read into the array `buf`. -/
def is_block_read (buf : DumpBuf) : BusOp → Bool
  | BusOp.memcpy_fromio b _ _ => b == buf
  | _ => false

/-- The number of block reads into the array `buf` among the accesses `log`. -/
def block_reads (buf : DumpBuf) (log : List BusOp) : Nat := log.countP (is_block_read buf)

/-! ## Sample configuration

A 64-bit target with an 8-byte region header and a 4-byte memory-section
header, a register map, and small driver states, used to evaluate the model. -/

def A0 : Abi :=
  { size_bits := 64, sizeof_mem_hdr := 8, sizeof_coredump := 2048, sizeof_coredump_mem := 4,
    len_bits := 32, mem_len_bits := 32, sizeof_magic := 16, sizeof_kernel := 64,
    sizeof_fw_ver := 32, sizeof_fw_type := 8, sizeof_fw_patch_date := 16,
    sizeof_wm_build_date := 16, sizeof_wa_build_date := 16, sizeof_fw_state := 12,
    sizeof_trace_sched := 32, sizeof_sched := 8, sizeof_trace_irq := 32, sizeof_irq := 8,
    sizeof_task_qid := 32, sizeof_task_info := 32, sizeof_fw_context := 24 }

def R0 : RegMap :=
  { MT_FW_EXCEPT_TYPE := 0x1000, MT_FW_ASSERT_STAT := 0x1004, MT_FW_EXCEPT_COUNT := 0x1008,
    MT_FW_LAST_MSG_ID := 0x100c, MT_FW_EINT_INFO := 0x2000, MT_FW_SCHED_INFO := 0x2004,
    MT_CONN_DBG_CTL_LOG_SEL := 0x3000, MT_CONN_DBG_CTL_PC_LOG_SEL := 0x3f0000,
    MT_CONN_DBG_CTL_PC_LOG := 0x3004, MT_MCU_WM_EXCP_PC_CTRL := 0x4000,
    MT_MCU_WM_EXCP_PC_CTRL_IDX_STATUS := 0x3f0000, MT_MCU_WM_EXCP_PC_LOG := 0x4100,
    MT_MCU_WM_EXCP_LR_CTRL := 0x4200, MT_MCU_WM_EXCP_LR_CTRL_IDX_STATUS := 0x3f0000,
    MT_MCU_WM_EXCP_LR_LOG := 0x4300, MT_FW_TASK_QID1 := 0x5004, MT_FW_TASK_QID2 := 0x500c,
    MT_FW_TASK_START := 0x5100, MT_FW_TASK_END := 0x5104, MT_FW_TASK_SIZE := 0x5108,
    MT_FW_CIRQ_COUNT := 0x6000, MT_FW_CIRQ_IDX := 0x6004, MT_FW_CIRQ_LISR := 0x6008,
    MT_FW_TASK_IDX := 0x600c, MT_FW_TASK_ID := 0x6010 }

/-- A device with the given identifier and register contents, whose block
reads return zero bytes, before any access. -/
def D0 (chip : Nat) (reg : Nat → Nat) : Dev :=
  { chip := chip, reg := reg, io := fun _ len => List.replicate len 0, log := [] }

def M0 : Mdev :=
  { release := "6.6.0", fw_version := "fw-1", patch_build_date := "20220101",
    wm_build_date := "20220102", wa_build_date := "20220103" }

/-- The driver state before registration: no holder, nothing allocated. -/
def S0 : Coredump :=
  { crash_data := List.replicate MT76_RAM_TYPE_MAX none,
    heap := { objs := [], next := 1, oom := [] } }

/-- A WM holder with a 4-byte snapshot buffer at address 2. -/
def H1 : mt7915_crash_data :=
  { zero_crash_data with memdump_buf := some 2, memdump_buf_len := 4 }

/-- A registered driver state: the WM holder `H1` with its snapshot buffer and
a WA holder without one. -/
def S1 : Coredump :=
  { crash_data := [some 1, some 3],
    heap :=
      { objs :=
          [ (3, Obj.crash_data zero_crash_data),
            (2, Obj.buffer [0xde, 0xad, 0xbe, 0xef]),
            (1, Obj.crash_data H1) ],
        next := 4, oom := [] } }


/-- A device of hardware 0x7915 whose scheduler info register holds the sample
count 60 (bits 15:8) and the index 59 (bits 7:0). -/
def D_wrap : Dev := D0 0x7915 (fun a => if a = R0.MT_FW_SCHED_INFO then 0x3c3b else 0)

/-- A device of hardware 0x7915 whose registers hold exception count 1 (bits
15:8), assert state 2 and exception category 5. -/
def D_assert : Dev :=
  D0 0x7915 (fun a => if a = R0.MT_FW_EXCEPT_COUNT then 0x100
    else if a = R0.MT_FW_ASSERT_STAT then 2
    else if a = R0.MT_FW_EXCEPT_TYPE then 5 else 0)

/-- A device whose registers hold circular-interrupt count 2, task id 7 and
task index 1. -/
def D_task : Dev :=
  D0 0x7916 (fun a => if a = R0.MT_FW_CIRQ_COUNT then 2
    else if a = R0.MT_FW_TASK_ID then 7
    else if a = R0.MT_FW_TASK_IDX then 1 else 0)

/-- A device of hardware 0x7916 whose scheduler info register holds the index 1
(bits 15:8) and the sample count 3 (bits 7:0). -/
def D_ring3 : Dev := D0 0x7916 (fun a => if a = R0.MT_FW_SCHED_INFO then 0x103 else 0)

/-! ## Derived descriptions of the accesses and stores -/

/-- The accesses of `mt7915_coredump_fw_trace` before the sampling loops. -/
def fw_trace_index_ops (R : RegMap) : List BusOp :=
  [BusOp.rr R.MT_FW_LAST_MSG_ID, BusOp.rr R.MT_FW_EINT_INFO,
    BusOp.rr (u32 (R.MT_FW_EINT_INFO + 0x8)), BusOp.rr R.MT_FW_SCHED_INFO]

/-- The sample count of the scheduler ring, capped at 60. -/
def sched_n (R : RegMap) (dev : Dev) : Nat :=
  min (if dev.chip = 0x7915 then u32 (dev.reg R.MT_FW_SCHED_INFO) / 2 ^ 8 % 2 ^ 8
       else u32 (dev.reg R.MT_FW_SCHED_INFO) % 2 ^ 8) 60

/-- The index field of the scheduler info register, `sched_info_idx`. -/
def sched_start (R : RegMap) (dev : Dev) : Nat :=
  if dev.chip = 0x7915 then u32 (dev.reg R.MT_FW_SCHED_INFO) % 2 ^ 8
  else u32 (dev.reg R.MT_FW_SCHED_INFO) / 2 ^ 8 % 2 ^ 8

/-- The sample count of the interrupt ring, capped at 60. -/
def irq_n (R : RegMap) (dev : Dev) : Nat :=
  min (if dev.chip = 0x7915 then u32 (dev.reg (u32 (R.MT_FW_EINT_INFO + 0x8))) / 2 ^ 8 % 2 ^ 8
       else u32 (dev.reg (u32 (R.MT_FW_EINT_INFO + 0x8))) % 2 ^ 8) 60

/-- The index field of the interrupt info register, `irq_info_idx`. -/
def irq_start (R : RegMap) (dev : Dev) : Nat :=
  if dev.chip = 0x7915 then u32 (dev.reg (u32 (R.MT_FW_EINT_INFO + 0x8))) % 2 ^ 8
  else u32 (dev.reg (u32 (R.MT_FW_EINT_INFO + 0x8))) / 2 ^ 16 % 2 ^ 8

/-- The block reads of the scheduler sampling loop. -/
def sched_ops (A : Abi) (R : RegMap) (dev : Dev) : List BusOp :=
  (ring_slots (sched_n R dev) (sched_n R dev) (sched_start R dev)).map
    (fun y => BusOp.memcpy_fromio DumpBuf.sched (u32 (R.MT_FW_EINT_INFO + 0xc + y * 12))
      A.sizeof_sched)

/-- The block reads of the interrupt sampling loop. -/
def irq_ops (A : Abi) (R : RegMap) (dev : Dev) : List BusOp :=
  (ring_slots (irq_n R dev) (irq_n R dev) (irq_start R dev)).map
    (fun y => BusOp.memcpy_fromio DumpBuf.irq (u32 (R.MT_FW_EINT_INFO + 0x4 + y * 16))
      A.sizeof_irq)

/-- The array `l` after the values `vs` are stored to its consecutive elements
from index `i` on. -/
def store_from : List Nat → Nat → List Nat → List Nat
  | l, _, [] => l
  | l, i, v :: vs => store_from (l.set i v) (i + 1) vs

/-- The accesses of `k` iterations of the loop sampling the current PC. -/
def pc_cur_ops (R : RegMap) : Nat → List BusOp
  | 0 => []
  | k + 1 => BusOp.rr R.MT_CONN_DBG_CTL_PC_LOG :: BusOp.usleep_range 100 500 :: pc_cur_ops R k

/-- The word `mt76_rmw(dev, offset, mask, val)` writes, for the register
contents `reg`. -/
def rmw_word (reg : Nat → Nat) (offset mask val : Nat) : Nat :=
  u32 (val ||| (u32 (reg offset) &&& (2 ^ 32 - 1 - u32 mask)))

/-- The register contents after `mt76_rmw(dev, offset, mask, val)`. -/
def rmw_reg (reg : Nat → Nat) (offset mask val : Nat) : Nat → Nat :=
  fun a => if a = offset then rmw_word reg offset mask val else reg a

/-- The word `mt7915_coredump_fw_stack` writes to the debug-log selector: the
field `MT_CONN_DBG_CTL_PC_LOG_SEL` set to 0x22, the other bits kept. -/
def sel_word (R : RegMap) (dev : Dev) : Nat :=
  rmw_word dev.reg R.MT_CONN_DBG_CTL_LOG_SEL R.MT_CONN_DBG_CTL_PC_LOG_SEL
    (FIELD_PREP R.MT_CONN_DBG_CTL_PC_LOG_SEL 0x22)

/-- The accesses of `mt7915_coredump_fw_stack` that select the PC log and take
the 10 samples of the current PC. -/
def stack_sample_ops (R : RegMap) (dev : Dev) : List BusOp :=
  [BusOp.rr R.MT_CONN_DBG_CTL_LOG_SEL, BusOp.wr R.MT_CONN_DBG_CTL_LOG_SEL (sel_word R dev)] ++
    (List.replicate 10
      [BusOp.rr R.MT_CONN_DBG_CTL_PC_LOG, BusOp.usleep_range 100 500]).flatten

/-- The accesses of `mt7915_coredump_fw_stack` that read the two control words
and the 32 words of each log. -/
def stack_read_ops (R : RegMap) : List BusOp :=
  [BusOp.rr R.MT_MCU_WM_EXCP_PC_CTRL] ++
    (List.range 32).map (fun i => BusOp.rr (u32 (R.MT_MCU_WM_EXCP_PC_LOG + i * 4))) ++
  [BusOp.rr R.MT_MCU_WM_EXCP_LR_CTRL] ++
    (List.range 32).map (fun i => BusOp.rr (u32 (R.MT_MCU_WM_EXCP_LR_LOG + i * 4)))

/-- The registers `mt7915_coredump_fw_stack` writes (the debug-log selector and
the two control registers) are three registers apart from the ones it reads
the samples and the log words from. -/
def stack_regs_distinct (R : RegMap) : Prop :=
  R.MT_CONN_DBG_CTL_LOG_SEL ≠ R.MT_MCU_WM_EXCP_PC_CTRL ∧
  R.MT_CONN_DBG_CTL_LOG_SEL ≠ R.MT_MCU_WM_EXCP_LR_CTRL ∧
  R.MT_CONN_DBG_CTL_PC_LOG ≠ R.MT_CONN_DBG_CTL_LOG_SEL ∧
  ∀ i, i < 32 →
    u32 (R.MT_MCU_WM_EXCP_PC_LOG + i * 4) ≠ R.MT_CONN_DBG_CTL_LOG_SEL ∧
    u32 (R.MT_MCU_WM_EXCP_PC_LOG + i * 4) ≠ R.MT_MCU_WM_EXCP_PC_CTRL ∧
    u32 (R.MT_MCU_WM_EXCP_PC_LOG + i * 4) ≠ R.MT_MCU_WM_EXCP_LR_CTRL ∧
    u32 (R.MT_MCU_WM_EXCP_LR_LOG + i * 4) ≠ R.MT_CONN_DBG_CTL_LOG_SEL ∧
    u32 (R.MT_MCU_WM_EXCP_LR_LOG + i * 4) ≠ R.MT_MCU_WM_EXCP_PC_CTRL ∧
    u32 (R.MT_MCU_WM_EXCP_LR_LOG + i * 4) ≠ R.MT_MCU_WM_EXCP_LR_CTRL

/-- A device of hardware 0x7915 each of whose registers holds its own address. -/
def D_ident : Dev := D0 0x7915 (fun a => a)

/-- The exception count field `mt7915_coredump_fw_state` reads. -/
def except_count (R : RegMap) (dev : Dev) : Nat :=
  if dev.chip = 0x7915 then u32 (dev.reg R.MT_FW_EXCEPT_COUNT) / 2 ^ 8 % 2 ^ 8
  else u32 (dev.reg R.MT_FW_EXCEPT_COUNT) % 2 ^ 8

/-- A device of hardware 0x7915 whose registers hold exception count 1 (bits
15:8) and assert state 1: the unclassified case. -/
def D_unclassified : Dev :=
  D0 0x7915 (fun a => if a = R0.MT_FW_EXCEPT_COUNT then 0x100
    else if a = R0.MT_FW_ASSERT_STAT then 1 else 0)

/-- The value returned by a call of `mt7915_coredump_register` and the array
`dev->coredump.crash_data` it leaves. -/
def register_outcome (r : Except Fault (Int × Coredump)) : Option (Int × List (Option Nat)) :=
  match r with
  | Except.ok (v, s) => some (v, s.crash_data)
  | Except.error _ => none

/-! # Theorems -/

/-! ## Arithmetic and bit fields -/

theorem ite_pair_snd {α β : Type} (c : Prop) [Decidable c] (a b : α) (d : β) :
    (if c then (a, d) else (b, d)) = ((if c then a else b), d) := by
  split_ifs <;> rfl

theorem genmask_eq_shift (h l : Nat) (hl : l ≤ h) :
    GENMASK h l = (2 ^ (h + 1 - l) - 1) <<< l := by
  unfold GENMASK
  rw [Nat.shiftLeft_eq, Nat.sub_mul, ← pow_add, one_mul]
  congr 2
  omega

/-- A field of a register, read with `FIELD_GET` and a `GENMASK` mask, is the
register shifted down and reduced to the width of the field. -/
theorem FIELD_GET_GENMASK (h l v : Nat) (hl : l ≤ h) (hs : bf_shf (GENMASK h l) = l) :
    FIELD_GET (GENMASK h l) v = v / 2 ^ l % 2 ^ (h + 1 - l) := by
  unfold FIELD_GET
  rw [hs, genmask_eq_shift h l hl]
  apply Nat.eq_of_testBit_eq
  intro i
  rw [← Nat.shiftRight_eq_div_pow]
  simp only [Nat.testBit_shiftRight, Nat.testBit_and, Nat.testBit_shiftLeft,
    Nat.testBit_two_pow_sub_one, Nat.testBit_mod_two_pow]
  have h1 : l + i ≥ l := by omega
  have h2 : l + i - l = i := by omega
  simp only [h1, h2, decide_True, Bool.true_and]
  rw [Bool.and_comm]

theorem FIELD_GET_7_0 (v : Nat) : FIELD_GET (GENMASK 7 0) v = v % 2 ^ 8 := by
  rw [FIELD_GET_GENMASK 7 0 v (by decide) (by decide)]; simp

theorem FIELD_GET_15_8 (v : Nat) : FIELD_GET (GENMASK 15 8) v = v / 2 ^ 8 % 2 ^ 8 := by
  rw [FIELD_GET_GENMASK 15 8 v (by decide) (by decide)]

theorem FIELD_GET_23_16 (v : Nat) : FIELD_GET (GENMASK 23 16) v = v / 2 ^ 16 % 2 ^ 8 := by
  rw [FIELD_GET_GENMASK 23 16 v (by decide) (by decide)]

theorem FIELD_GET_15_0 (v : Nat) : FIELD_GET (GENMASK 15 0) v = v % 2 ^ 16 := by
  rw [FIELD_GET_GENMASK 15 0 v (by decide) (by decide)]; simp

theorem FIELD_GET_31_16 (v : Nat) : FIELD_GET (GENMASK 31 16) v = v / 2 ^ 16 % 2 ^ 16 := by
  rw [FIELD_GET_GENMASK 31 16 v (by decide) (by decide)]

theorem strscpy_fits (dest src : String) (size : Nat) (h : src.length < size) :
    strscpy dest src size = src := by
  unfold strscpy
  have h0 : size ≠ 0 := by omega
  rw [if_neg h0]
  have : src.data.length ≤ size - 1 := by
    have : src.data.length = src.length := rfl
    omega
  rw [List.take_of_length_le this]

theorem land_clear_low2 (w y : Nat) (hw : 2 ≤ w) (hy : y < 2 ^ w) :
    y &&& (2 ^ w - 1 - 3) = y / 4 * 4 := by
  apply Nat.eq_of_testBit_eq
  intro i
  have h4 : y / 4 * 4 = (y >>> 2) <<< 2 := by
    rw [Nat.shiftRight_eq_div_pow, Nat.shiftLeft_eq]
  have hm : 2 ^ w - 1 - 3 = (2 ^ (w - 2) - 1) <<< 2 := by
    rw [Nat.shiftLeft_eq]
    have : 2 ^ w = 2 ^ (w - 2) * 4 := by
      rw [show (4:Nat) = 2 ^ 2 by norm_num, ← pow_add]; congr 1; omega
    have hp : 0 < 2 ^ (w - 2) := Nat.pow_pos (by norm_num)
    omega
  rw [h4, hm]
  simp only [Nat.testBit_and, Nat.testBit_shiftLeft, Nat.testBit_shiftRight,
    Nat.testBit_two_pow_sub_one]
  by_cases h2 : 2 ≤ i
  · have : 2 + (i - 2) = i := by omega
    simp only [h2, this, decide_True, Bool.true_and, ge_iff_le]
    by_cases hi : i - 2 < w - 2
    · simp [hi]
    · have : w ≤ i := by omega
      have : y.testBit i = false := by
        apply Nat.testBit_lt_two_pow
        exact lt_of_lt_of_le hy (Nat.pow_le_pow_right (by norm_num) this)
      simp [this]
  · simp [h2]

theorem ALIGN_four (w x : Nat) (hw : 2 ≤ w) (hx : x + 3 < 2 ^ w) :
    ALIGN w x 4 = (x + 3) / 4 * 4 := by
  unfold ALIGN
  rw [show 4 - 1 = 3 by rfl, Nat.mod_eq_of_lt hx]
  exact land_clear_low2 w (x + 3) hw hx

theorem two_pow_32_le (w : Nat) (hw : 32 ≤ w) : 2 ^ 32 ≤ 2 ^ w :=
  Nat.pow_le_pow_right (by norm_num) hw

theorem sum_region_len_eq (A : Abi) (l : List mt7915_mem_region) (s : Nat)
    (h : s + (l.map (fun r => r.len)).sum < 2 ^ A.size_bits) :
    sum_region_len A l s = s + (l.map (fun r => r.len)).sum := by
  induction l generalizing s with
  | nil => simp [sum_region_len]
  | cons r rest ih =>
    simp only [List.map_cons, List.sum_cons] at h
    have h1 : (s + r.len) % 2 ^ A.size_bits = s + r.len := Nat.mod_eq_of_lt (by omega)
    simp only [sum_region_len, List.map_cons, List.sum_cons, h1]
    rw [ih _ (by omega)]
    omega

theorem to_int_small (x : Nat) (h : x < 2 ^ 31) : to_int x = (x : Int) := by
  unfold to_int
  have h1 : x % 2 ^ 32 = x := Nat.mod_eq_of_lt (by omega)
  rw [h1, if_pos h]


/-! ## Region catalog: sizes and layout -/

/-- The size computed for a region list, when nothing wraps. -/
theorem mem_size_of_layout (A : Abi) (chip type : Nat) (regions : List mt7915_mem_region)
    (hl : mt7915_coredump_get_mem_layout chip type = some regions)
    (hw : 32 ≤ A.size_bits)
    (hb : (regions.map (fun r => r.len)).sum + regions.length * A.sizeof_mem_hdr + 3 < 2 ^ 31) :
    mt7915_coredump_get_mem_size A chip type =
      ((((regions.map (fun r => r.len)).sum + regions.length * A.sizeof_mem_hdr + 3) / 4 * 4 : Nat) : Int) := by
  have h32 := two_pow_32_le A.size_bits hw
  unfold mt7915_coredump_get_mem_size
  rw [hl]
  simp only
  rw [sum_region_len_eq A regions 0 (by omega)]
  rw [Nat.mod_eq_of_lt (show regions.length * A.sizeof_mem_hdr < 2 ^ A.size_bits by omega)]
  rw [Nat.mod_eq_of_lt (show 0 + (regions.map (fun r => r.len)).sum
    + regions.length * A.sizeof_mem_hdr < 2 ^ A.size_bits by omega)]
  rw [ALIGN_four _ _ (by omega) (by omega)]
  rw [Nat.zero_add]
  apply to_int_small
  omega

/-- Every region list the lookup returns is one of the three catalogs, whose
lengths and header overhead stay far below `2 ^ 31`. -/
theorem layout_total_bound (A : Abi) (chip type : Nat) (regions : List mt7915_mem_region)
    (hl : mt7915_coredump_get_mem_layout chip type = some regions)
    (hh : A.sizeof_mem_hdr < 2 ^ 28) :
    0 < (regions.map (fun r => r.len)).sum ∧
    (regions.map (fun r => r.len)).sum + regions.length * A.sizeof_mem_hdr + 3 < 2 ^ 31 := by
  unfold mt7915_coredump_get_mem_layout at hl
  split_ifs at hl <;> simp only [Option.some.injEq] at hl <;> subst hl <;>
    simp [mt7915_mem_regions, mt7916_mem_regions, mt7986_mem_regions] <;> omega

theorem layout_of_chip (chip : Nat) (hchip : chip = 0x7915 ∨ chip = 0x7916 ∨ chip = 0x7986) :
    ∃ regions, mt7915_coredump_get_mem_layout chip MT76_RAM_TYPE_WM = some regions := by
  rcases hchip with h | h | h <;> subst h <;>
    simp [mt7915_coredump_get_mem_layout, MT76_RAM_TYPE_WM, MT76_RAM_TYPE_WA]

/-- C1: for the hardware identifiers 0x7915, 0x7916 and 0x7986 and the type WM,
`mt7915_coredump_get_mem_size` returns the sum of the `len` members of the
regions of `mt7915_coredump_get_mem_layout` plus the number of regions times
`sizeof(struct mt7915_mem_hdr)`, rounded up to the next multiple of 4: the
returned `int` is that natural number itself (nothing is lost in the
conversion), it is a multiple of 4, not below the total and less than 4 above
it. `size_t` has at least 32 bits and the header size is below `2 ^ 28`. -/
theorem get_mem_size_exact (A : Abi) (chip : Nat)
    (hchip : chip = 0x7915 ∨ chip = 0x7916 ∨ chip = 0x7986)
    (hw : 32 ≤ A.size_bits) (hh : A.sizeof_mem_hdr < 2 ^ 28) :
    ∃ regions size total : Nat, ∃ layout : List mt7915_mem_region,
      mt7915_coredump_get_mem_layout chip MT76_RAM_TYPE_WM = some layout ∧
      regions = layout.length ∧
      total = (layout.map (fun r => r.len)).sum + regions * A.sizeof_mem_hdr ∧
      mt7915_coredump_get_mem_size A chip MT76_RAM_TYPE_WM = (size : Int) ∧
      size = (total + 3) / 4 * 4 ∧
      size % 4 = 0 ∧ total ≤ size ∧ size < total + 4 := by
  obtain ⟨layout, hl⟩ := layout_of_chip chip hchip
  obtain ⟨_, hb⟩ := layout_total_bound A chip _ layout hl hh
  refine ⟨layout.length, _, _, layout, hl, rfl, rfl,
    mem_size_of_layout A chip _ layout hl hw hb, rfl, ?_, ?_, ?_⟩ <;> omega

theorem get_mem_size_exact_witness :
    ∃ regions size total : Nat, ∃ layout : List mt7915_mem_region,
      mt7915_coredump_get_mem_layout 0x7916 MT76_RAM_TYPE_WM = some layout ∧
      regions = layout.length ∧
      total = (layout.map (fun r => r.len)).sum + regions * A0.sizeof_mem_hdr ∧
      mt7915_coredump_get_mem_size A0 0x7916 MT76_RAM_TYPE_WM = (size : Int) ∧
      size = (total + 3) / 4 * 4 ∧
      size % 4 = 0 ∧ total ≤ size ∧ size < total + 4 :=
  get_mem_size_exact A0 0x7916 (by decide) (by decide) (by decide)

theorem separate_disjoint (a b : mt7915_mem_region)
    (h : a.start + a.len ≤ b.start ∨ b.start + b.len ≤ a.start) : regions_disjoint a b := by
  intro x hx
  omega

theorem catalog_ok_of_decide (regions : List mt7915_mem_region) (count : Nat)
    (h1 : regions.length = count) (h0 : regions ≠ [])
    (h2 : regions.Pairwise
      (fun a b => a.start + a.len ≤ b.start ∨ b.start + b.len ≤ a.start))
    (h3 : ∀ r ∈ regions, r.start + r.len < 2 ^ 32) : catalog_ok regions count :=
  ⟨h1, h0, h2.imp (fun {a b} h => separate_disjoint a b h), h3⟩

/-- C2: for the hardware identifiers 0x7915, 0x7916 and 0x7986 with type WM the
region list of `mt7915_coredump_get_mem_layout` is not empty (1, 6 and 6
regions), any two of its regions share no address, and no `start + len`
reaches `2 ^ 32`. -/
theorem mem_layout_non_overlapping :
    (∃ l, mt7915_coredump_get_mem_layout 0x7915 MT76_RAM_TYPE_WM = some l ∧ catalog_ok l 1) ∧
    (∃ l, mt7915_coredump_get_mem_layout 0x7916 MT76_RAM_TYPE_WM = some l ∧ catalog_ok l 6) ∧
    (∃ l, mt7915_coredump_get_mem_layout 0x7986 MT76_RAM_TYPE_WM = some l ∧ catalog_ok l 6) := by
  refine ⟨⟨mt7915_mem_regions, rfl, ?_⟩, ⟨mt7916_mem_regions, rfl, ?_⟩,
    ⟨mt7986_mem_regions, rfl, ?_⟩⟩ <;>
  · apply catalog_ok_of_decide
    · rfl
    · decide
    · decide
    · decide

/-- C3: `mt7915_coredump_get_mem_layout` returns `NULL` exactly for the type WA
(whatever the hardware identifier) and for a hardware identifier other than
0x7915, 0x7916 and 0x7986 (whatever the type); `mt7915_coredump_get_mem_size`
returns 0 in exactly those cases and a value greater than 0 in every other.
`size_t` has at least 32 bits and the header size is below `2 ^ 28`. -/
theorem get_mem_layout_absent_iff (A : Abi) (chip type : Nat)
    (hw : 32 ≤ A.size_bits) (hh : A.sizeof_mem_hdr < 2 ^ 28) :
    (mt7915_coredump_get_mem_layout chip type = none ↔
      (type = MT76_RAM_TYPE_WA ∨ (chip ≠ 0x7915 ∧ chip ≠ 0x7916 ∧ chip ≠ 0x7986))) ∧
    (mt7915_coredump_get_mem_size A chip type = 0 ↔
      (type = MT76_RAM_TYPE_WA ∨ (chip ≠ 0x7915 ∧ chip ≠ 0x7916 ∧ chip ≠ 0x7986))) ∧
    (¬ (type = MT76_RAM_TYPE_WA ∨ (chip ≠ 0x7915 ∧ chip ≠ 0x7916 ∧ chip ≠ 0x7986)) →
      0 < mt7915_coredump_get_mem_size A chip type) := by
  have hnone : mt7915_coredump_get_mem_layout chip type = none ↔
      (type = MT76_RAM_TYPE_WA ∨ (chip ≠ 0x7915 ∧ chip ≠ 0x7916 ∧ chip ≠ 0x7986)) := by
    unfold mt7915_coredump_get_mem_layout
    split_ifs <;> simp_all
  have hpos : ∀ l, mt7915_coredump_get_mem_layout chip type = some l →
      0 < mt7915_coredump_get_mem_size A chip type := by
    intro l hl
    obtain ⟨h0, hb⟩ := layout_total_bound A chip type l hl hh
    rw [mem_size_of_layout A chip type l hl hw hb]
    have : 0 < ((l.map (fun r => r.len)).sum + l.length * A.sizeof_mem_hdr + 3) / 4 * 4 := by
      omega
    exact_mod_cast this
  have hzero : mt7915_coredump_get_mem_layout chip type = none →
      mt7915_coredump_get_mem_size A chip type = 0 := by
    intro h
    unfold mt7915_coredump_get_mem_size
    rw [h]
  refine ⟨hnone, ?_, ?_⟩
  · rw [← hnone]
    constructor
    · intro h0
      cases hl : mt7915_coredump_get_mem_layout chip type with
      | none => rfl
      | some l => have := hpos l hl; omega
    · exact hzero
  · intro hn
    rw [← hnone] at hn
    cases hl : mt7915_coredump_get_mem_layout chip type with
    | none => exact absurd hl hn
    | some l => exact hpos l hl

theorem get_mem_layout_absent_iff_witness :
    32 ≤ A0.size_bits ∧ A0.sizeof_mem_hdr < 2 ^ 28 ∧
    mt7915_coredump_get_mem_layout 0x7986 MT76_RAM_TYPE_WA = none ∧
    mt7915_coredump_get_mem_size A0 0x7986 MT76_RAM_TYPE_WA = 0 ∧
    0 < mt7915_coredump_get_mem_size A0 0x7915 MT76_RAM_TYPE_WM :=
  ⟨by decide, by decide,
    (get_mem_layout_absent_iff A0 0x7986 MT76_RAM_TYPE_WA (by decide) (by decide)).1.mpr
      (Or.inl rfl),
    (get_mem_layout_absent_iff A0 0x7986 MT76_RAM_TYPE_WA (by decide) (by decide)).2.1.mpr
      (Or.inl rfl),
    (get_mem_layout_absent_iff A0 0x7915 MT76_RAM_TYPE_WM (by decide) (by decide)).2.2
      (by decide)⟩

/-! ## Dump assembler: total length and stores -/

theorem sched_loop_len (A : Abi) (base n k y : Nat) (dev : Dev) (dump : mt7915_coredump) :
    (sched_loop A base n k y dev dump).2.len = dump.len ∧
    (sched_loop A base n k y dev dump).2.hdr_len = dump.hdr_len := by
  induction k generalizing y dev dump with
  | zero => simp [sched_loop]
  | succ k ih =>
    simp only [sched_loop, mt7915_memcpy_fromio]
    exact ih _ _ _

theorem irq_loop_len (A : Abi) (base n k y : Nat) (dev : Dev) (dump : mt7915_coredump) :
    (irq_loop A base n k y dev dump).2.len = dump.len ∧
    (irq_loop A base n k y dev dump).2.hdr_len = dump.hdr_len := by
  induction k generalizing y dev dump with
  | zero => simp [irq_loop]
  | succ k ih =>
    simp only [irq_loop, mt7915_memcpy_fromio]
    exact ih _ _ _

theorem pc_cur_loop_len (R : RegMap) (k i : Nat) (dev : Dev) (dump : mt7915_coredump) :
    (pc_cur_loop R k i dev dump).2.len = dump.len ∧
    (pc_cur_loop R k i dev dump).2.hdr_len = dump.hdr_len := by
  induction k generalizing i dev dump with
  | zero => simp [pc_cur_loop]
  | succ k ih =>
    simp only [pc_cur_loop, mt76_rr]
    exact ih _ _ _

theorem pc_stack_loop_len (R : RegMap) (k i : Nat) (dev : Dev) (dump : mt7915_coredump) :
    (pc_stack_loop R k i dev dump).2.len = dump.len ∧
    (pc_stack_loop R k i dev dump).2.hdr_len = dump.hdr_len := by
  induction k generalizing i dev dump with
  | zero => simp [pc_stack_loop]
  | succ k ih =>
    simp only [pc_stack_loop, mt76_rr]
    exact ih _ _ _

theorem lr_stack_loop_len (R : RegMap) (k i : Nat) (dev : Dev) (dump : mt7915_coredump) :
    (lr_stack_loop R k i dev dump).2.len = dump.len ∧
    (lr_stack_loop R k i dev dump).2.hdr_len = dump.hdr_len := by
  induction k generalizing i dev dump with
  | zero => simp [lr_stack_loop]
  | succ k ih =>
    simp only [lr_stack_loop, mt76_rr]
    exact ih _ _ _

theorem fw_state_len (A : Abi) (R : RegMap) (dev : Dev) (type : Nat) (dump : mt7915_coredump)
    (e : Bool) :
    (mt7915_coredump_fw_state A R dev type dump e).2.1.len = dump.len ∧
    (mt7915_coredump_fw_state A R dev type dump e).2.1.hdr_len = dump.hdr_len := by
  unfold mt7915_coredump_fw_state
  simp only [mt76_get_field, mt76_rr, ite_pair_snd]
  split_ifs <;> simp only [and_self]

theorem fw_trace_len (A : Abi) (R : RegMap) (dev : Dev) (type : Nat) (dump : mt7915_coredump)
    (e : Bool) :
    (mt7915_coredump_fw_trace A R dev type dump e).2.len = dump.len ∧
    (mt7915_coredump_fw_trace A R dev type dump e).2.hdr_len = dump.hdr_len := by
  unfold mt7915_coredump_fw_trace
  simp only [mt76_get_field, mt76_rr, ite_pair_snd]
  split_ifs <;> simp only [irq_loop_len, sched_loop_len, and_self]

theorem fw_task_len (A : Abi) (R : RegMap) (dev : Dev) (type : Nat) (dump : mt7915_coredump) :
    (mt7915_coredump_fw_task A R dev type dump).2.len = dump.len ∧
    (mt7915_coredump_fw_task A R dev type dump).2.hdr_len = dump.hdr_len := by
  unfold mt7915_coredump_fw_task
  split_ifs <;> exact ⟨rfl, rfl⟩

theorem fw_context_len (A : Abi) (R : RegMap) (dev : Dev) (type : Nat)
    (dump : mt7915_coredump) :
    (mt7915_coredump_fw_context A R dev type dump).2.len = dump.len ∧
    (mt7915_coredump_fw_context A R dev type dump).2.hdr_len = dump.hdr_len := by
  unfold mt7915_coredump_fw_context
  simp only [mt76_get_field, mt76_rr, ite_pair_snd]
  split_ifs <;> simp only [and_self]

theorem fw_stack_len (R : RegMap) (dev : Dev) (type : Nat) (dump : mt7915_coredump)
    (e : Bool) :
    (mt7915_coredump_fw_stack R dev type dump e).2.len = dump.len ∧
    (mt7915_coredump_fw_stack R dev type dump e).2.hdr_len = dump.hdr_len := by
  unfold mt7915_coredump_fw_stack
  split_ifs <;> exact ⟨rfl, rfl⟩

theorem build_fw_steps_len (A : Abi) (R : RegMap) (dev : Dev) (type : Nat)
    (dump : mt7915_coredump) (e : Bool) :
    (build_fw_steps A R dev type dump e).2.len = dump.len ∧
    (build_fw_steps A R dev type dump e).2.hdr_len = dump.hdr_len := by
  unfold build_fw_steps
  simp only [fw_stack_len, fw_context_len, fw_task_len, fw_trace_len, fw_state_len]
  exact ⟨trivial, trivial⟩

/-- C4: for every call of `mt7915_coredump_build` that returns a dump, the
declared total length `dump->len`, which is also the size passed to `vzalloc`,
is `hdr_len + sizeof(struct mt7915_coredump_mem) + memdump_buf_len` when
snapshot capture is enabled and the `memdump_buf_len` of the CrashData is not
zero, and is `hdr_len` otherwise; with snapshot capture disabled it equals the
header length whatever `memdump_buf_len` is. The three sizes together fit the
member `len`, which is not wider than `size_t`. -/
theorem build_len (A : Abi) (R : RegMap) (coredump_memdump : Bool) (mdev : Mdev)
    (s : Coredump) (dev : Dev) (type : Nat) (exception0 : Bool) (c : mt7915_crash_data)
    (built : Built)
    (hc : load_crash_data s.heap (s.crash_data.getD type none) = Except.ok c)
    (hbits : A.len_bits ≤ A.size_bits)
    (hfit : A.sizeof_coredump + A.sizeof_coredump_mem + c.memdump_buf_len < 2 ^ A.len_bits)
    (hb : build_result (mt7915_coredump_build A R coredump_memdump mdev s dev type exception0)
      = some built) :
    built.dump.hdr_len = A.sizeof_coredump ∧ built.alloc = built.dump.len ∧
    built.dump.len =
      (if coredump_memdump = true ∧ c.memdump_buf_len ≠ 0 then
        A.sizeof_coredump + A.sizeof_coredump_mem + c.memdump_buf_len
      else A.sizeof_coredump) ∧
    (coredump_memdump = false → built.dump.len = built.dump.hdr_len) := by
  have hle : 2 ^ A.len_bits ≤ 2 ^ A.size_bits := Nat.pow_le_pow_right (by norm_num) hbits
  have m1 : A.sizeof_coredump % 2 ^ A.size_bits = A.sizeof_coredump :=
    Nat.mod_eq_of_lt (by omega)
  have m2 : (A.sizeof_coredump_mem + c.memdump_buf_len) % 2 ^ A.size_bits
      = A.sizeof_coredump_mem + c.memdump_buf_len := Nat.mod_eq_of_lt (by omega)
  have m3 : (A.sizeof_coredump + (A.sizeof_coredump_mem + c.memdump_buf_len)) % 2 ^ A.size_bits
      = A.sizeof_coredump + A.sizeof_coredump_mem + c.memdump_buf_len := by
    rw [Nat.mod_eq_of_lt (by omega)]; omega
  have m4 : A.sizeof_coredump % 2 ^ A.len_bits = A.sizeof_coredump :=
    Nat.mod_eq_of_lt (by omega)
  have m5 : (A.sizeof_coredump + A.sizeof_coredump_mem + c.memdump_buf_len) % 2 ^ A.len_bits
      = A.sizeof_coredump + A.sizeof_coredump_mem + c.memdump_buf_len :=
    Nat.mod_eq_of_lt (by omega)
  unfold mt7915_coredump_build at hb
  simp only [hc, bind, Except.bind, m1, m2, m3] at hb
  split at hb
  · simp [build_result] at hb
  · rename_i buf heap hv
    by_cases hm : coredump_memdump = true ∧ c.memdump_buf_len ≠ 0
    · rw [if_pos hm] at hb
      cases hlb : load_bytes heap c.memdump_buf c.memdump_buf_len with
      | error e => simp [hlb, build_result] at hb
      | ok bytes =>
        simp only [hlb, build_result, Option.some.injEq] at hb
        subst hb
        simp only [build_fw_steps_len, if_pos hm, m4, m5]
        simp [hm.1]
    · rw [if_neg hm] at hb
      simp only [build_result, Option.some.injEq] at hb
      subst hb
      simp only [build_fw_steps_len, if_neg hm, m4]
      simp

theorem build_len_witness :
    load_crash_data S1.heap (S1.crash_data.getD MT76_RAM_TYPE_WM none) = Except.ok H1 ∧
    A0.len_bits ≤ A0.size_bits ∧
    A0.sizeof_coredump + A0.sizeof_coredump_mem + H1.memdump_buf_len < 2 ^ A0.len_bits ∧
    (build_result (mt7915_coredump_build A0 R0 true M0 S1 (D0 0x7915 (fun _ => 0))
      MT76_RAM_TYPE_WM false)).map (fun b => (b.dump.hdr_len, b.alloc, b.dump.len)) =
      some (2048, 2056, 2056) := by
  refine ⟨rfl, by decide, by decide, ?_⟩
  cases hb : build_result (mt7915_coredump_build A0 R0 true M0 S1 (D0 0x7915 (fun _ => 0))
      MT76_RAM_TYPE_WM false) with
  | none =>
    have hs : (build_result (mt7915_coredump_build A0 R0 true M0 S1 (D0 0x7915 (fun _ => 0))
      MT76_RAM_TYPE_WM false)).isSome = true := rfl
    rw [hb] at hs
    exact absurd hs (by decide)
  | some built =>
    obtain ⟨h1, h2, h3, _⟩ := build_len A0 R0 true M0 S1 (D0 0x7915 (fun _ => 0))
      MT76_RAM_TYPE_WM false H1 built rfl (by decide) (by decide) hb
    have h4 : built.dump.len = 2056 := by rw [h3]; decide
    simp only [Option.map_some']
    rw [h1, h2, h4]
    rfl

/-- Without a memory section (snapshot capture disabled, or a zero
`memdump_buf_len`) a call of `mt7915_coredump_build` that returns a dump has
allocated `hdr_len` bytes and has stored the member `len` of the memory
section at offset `hdr_len`. -/
theorem build_store_without_section (A : Abi) (R : RegMap) (coredump_memdump : Bool)
    (mdev : Mdev) (s : Coredump) (dev : Dev) (type : Nat) (exception0 : Bool)
    (c : mt7915_crash_data) (built : Built)
    (hc : load_crash_data s.heap (s.crash_data.getD type none) = Except.ok c)
    (hsz : A.sizeof_coredump < 2 ^ A.size_bits)
    (hno : coredump_memdump = false ∨ c.memdump_buf_len = 0)
    (hb : build_result (mt7915_coredump_build A R coredump_memdump mdev s dev type exception0)
      = some built) :
    built.alloc = A.sizeof_coredump ∧
    built.mem_stores = [{ off := A.sizeof_coredump, nbytes := A.mem_len_bits / 8 }] := by
  have m1 : A.sizeof_coredump % 2 ^ A.size_bits = A.sizeof_coredump := Nat.mod_eq_of_lt hsz
  have hm : ¬ (coredump_memdump = true ∧ c.memdump_buf_len ≠ 0) := by
    rcases hno with h | h
    · simp [h]
    · simp [h]
  unfold mt7915_coredump_build at hb
  simp only [hc, bind, Except.bind, m1, if_neg hm, Nat.zero_add] at hb
  split at hb
  · simp [build_result] at hb
  · simp only [build_result, Option.some.injEq] at hb
    subst hb
    exact ⟨rfl, rfl⟩

/-- C5: `mt7915_coredump_build` stores the member `len` of the memory section
whether or not a memory section is present. In the sample configuration, with
snapshot capture disabled (type WM), and with snapshot capture enabled for a
CrashData whose `memdump_buf_len` is 0 (type WA), the buffer has 2048 bytes,
the header length, and 4 bytes are stored at offset 2048, past its end. -/
theorem build_stores_past_buffer :
    (build_result (mt7915_coredump_build A0 R0 false M0 S1 (D0 0x7915 (fun _ => 0))
      MT76_RAM_TYPE_WM false)).map (fun b => (b.alloc, b.mem_stores)) =
      some (2048, [{ off := 2048, nbytes := 4 }]) ∧
    (build_result (mt7915_coredump_build A0 R0 true M0 S1 (D0 0x7915 (fun _ => 0))
      MT76_RAM_TYPE_WA false)).map (fun b => (b.alloc, b.mem_stores)) =
      some (2048, [{ off := 2048, nbytes := 4 }]) := by
  constructor
  · rfl
  · rfl

/-! ## State extractor: classification -/

/-- The classification string `mt7915_coredump_fw_state` leaves in the dump,
for type WM, in terms of the three fields it reads. -/
theorem fw_state_string (A : Abi) (R : RegMap) (dev : Dev) (dump : mt7915_coredump)
    (e : Bool) (hsz : 10 ≤ A.sizeof_fw_state) :
    (mt7915_coredump_fw_state A R dev MT76_RAM_TYPE_WM dump e).2.1.fw_state =
      (let category := u32 (dev.reg R.MT_FW_EXCEPT_TYPE) % 2 ^ 8
       let state := u32 (dev.reg R.MT_FW_ASSERT_STAT) % 2 ^ 8
       let count := if dev.chip = 0x7915 then u32 (dev.reg R.MT_FW_EXCEPT_COUNT) / 2 ^ 8 % 2 ^ 8
                    else u32 (dev.reg R.MT_FW_EXCEPT_COUNT) % 2 ^ 8
       if count = 0 then "normal"
       else if state > 1 ∧ count = 1 ∧ category = 5 then "assert"
       else if (state > 1 ∧ count = 1) ∨ count > 1 then "exception"
       else dump.fw_state) := by
  unfold mt7915_coredump_fw_state
  have hWM : ¬ MT76_RAM_TYPE_WM = MT76_RAM_TYPE_WA := by decide
  simp only [if_neg hWM, mt76_get_field, mt76_rr, ite_pair_snd, is_mt7915, mt76_chip,
    FIELD_GET_7_0, FIELD_GET_15_8, beq_iff_eq]
  have s1 : strscpy dump.fw_state "normal" A.sizeof_fw_state = "normal" :=
    strscpy_fits _ _ _ (by have : "normal".length = 6 := by decide
                           omega)
  have s2 : strscpy dump.fw_state "assert" A.sizeof_fw_state = "assert" :=
    strscpy_fits _ _ _ (by have : "assert".length = 6 := by decide
                           omega)
  have s3 : strscpy dump.fw_state "exception" A.sizeof_fw_state = "exception" :=
    strscpy_fits _ _ _ (by have : "exception".length = 9 := by decide
                           omega)
  split_ifs <;> simp_all

/-- C6: for type WM and all register contents, with `category` the bits 7:0 of
the exception-type register, `state` the bits 7:0 of the assert-state register
and `count` the bits 15:8 of the exception-count register on hardware 0x7915
and its bits 7:0 on other hardware, `mt7915_coredump_fw_state` leaves
`fw_state` equal to "normal" iff `count = 0`, to "assert" iff `state > 1`,
`count = 1` and `category = 5`, to "exception" iff (`state > 1`, `count = 1`
and `category ≠ 5`) or `count > 1`, and at its zero-initialised empty value iff
`count = 1` and `state ≤ 1`; exactly one of the four cases holds. The array
`fw_state` has room for the longest of the strings. -/
theorem fw_state_classification (A : Abi) (R : RegMap) (dev : Dev) (dump : mt7915_coredump)
    (e : Bool) (hsz : 10 ≤ A.sizeof_fw_state) (hzero : dump.fw_state = "") :
    let category := u32 (dev.reg R.MT_FW_EXCEPT_TYPE) % 2 ^ 8
    let state := u32 (dev.reg R.MT_FW_ASSERT_STAT) % 2 ^ 8
    let count := if dev.chip = 0x7915 then u32 (dev.reg R.MT_FW_EXCEPT_COUNT) / 2 ^ 8 % 2 ^ 8
                 else u32 (dev.reg R.MT_FW_EXCEPT_COUNT) % 2 ^ 8
    let fw_state := (mt7915_coredump_fw_state A R dev MT76_RAM_TYPE_WM dump e).2.1.fw_state
    (fw_state = "normal" ↔ count = 0) ∧
    (fw_state = "assert" ↔ (state > 1 ∧ count = 1 ∧ category = 5)) ∧
    (fw_state = "exception" ↔ ((state > 1 ∧ count = 1 ∧ category ≠ 5) ∨ count > 1)) ∧
    (fw_state = "" ↔ (count = 1 ∧ state ≤ 1)) ∧
    (fw_state = "normal" ∨ fw_state = "assert" ∨ fw_state = "exception" ∨ fw_state = "") ∧
    (count = 0 ∨ (state > 1 ∧ count = 1 ∧ category = 5) ∨
      ((state > 1 ∧ count = 1 ∧ category ≠ 5) ∨ count > 1) ∨ (count = 1 ∧ state ≤ 1)) ∧
    ¬ (count = 0 ∧ (state > 1 ∧ count = 1 ∧ category = 5)) ∧
    ¬ (count = 0 ∧ ((state > 1 ∧ count = 1 ∧ category ≠ 5) ∨ count > 1)) ∧
    ¬ (count = 0 ∧ (count = 1 ∧ state ≤ 1)) ∧
    ¬ ((state > 1 ∧ count = 1 ∧ category = 5) ∧
      ((state > 1 ∧ count = 1 ∧ category ≠ 5) ∨ count > 1)) ∧
    ¬ ((state > 1 ∧ count = 1 ∧ category = 5) ∧ (count = 1 ∧ state ≤ 1)) ∧
    ¬ (((state > 1 ∧ count = 1 ∧ category ≠ 5) ∨ count > 1) ∧ (count = 1 ∧ state ≤ 1)) := by
  intro category state count fw_state
  have hs : fw_state = _ := fw_state_string A R dev dump e hsz
  simp only [hzero] at hs
  have d1 : ("normal" : String) ≠ "assert" := by decide
  have d2 : ("normal" : String) ≠ "exception" := by decide
  have d3 : ("normal" : String) ≠ "" := by decide
  have d4 : ("assert" : String) ≠ "exception" := by decide
  have d5 : ("assert" : String) ≠ "" := by decide
  have d6 : ("exception" : String) ≠ "" := by decide
  change fw_state = (if count = 0 then "normal"
       else if state > 1 ∧ count = 1 ∧ category = 5 then "assert"
       else if (state > 1 ∧ count = 1) ∨ count > 1 then "exception"
       else "") at hs
  rw [hs]
  by_cases c0 : count = 0
  · simp only [c0, if_true]
    simp [d1, d2, d3]
  · rw [if_neg c0]
    by_cases ca : state > 1 ∧ count = 1 ∧ category = 5
    · rw [if_pos ca]
      simp only [d1.symm, d4, d5, ca, c0]
      simp
      omega
    · rw [if_neg ca]
      by_cases ce : (state > 1 ∧ count = 1) ∨ count > 1
      · rw [if_pos ce]
        simp only [d2.symm, d4.symm, d6, c0]
        simp
        omega
      · rw [if_neg ce]
        simp only [d3.symm, d5.symm, d6.symm, c0]
        simp
        omega

theorem fw_state_classification_witness :
    10 ≤ A0.sizeof_fw_state ∧ (zero_dump A0).fw_state = "" ∧
    (mt7915_coredump_fw_state A0 R0 D_assert MT76_RAM_TYPE_WM (zero_dump A0) false).2.1.fw_state
      = "assert" :=
  ⟨by decide, rfl,
    (fw_state_classification A0 R0 D_assert (zero_dump A0) false (by decide) rfl).2.1.mpr
      ⟨by decide, by decide, by decide⟩⟩


/-- C7: for type WM and all register contents, `mt7915_coredump_fw_context`:
when the circular-interrupt count register is 0 it sets `fw_context` to
"(context) interrupt", `context.idx` to the bits 31:16 of the CIRQ index
register on hardware 0x7915 and to its bits 15:0 otherwise, and
`context.handler` to the LISR register; otherwise, with `idx` the task-index
register and `id` the task-id register, `fw_context` is "(context) idle" iff
`id = 0` and `idx = 3` (`context.idx` and `context.handler` stay 0), it is
"(context) task" iff `id ≠ 0` and `idx ≠ 3` (then `context.idx = idx` and
`context.handler = id`), and in the remaining combinations the three members
stay at their zero defaults. The array `fw_context` has room for the longest
of the strings. -/
theorem fw_context_classification (A : Abi) (R : RegMap) (dev : Dev)
    (dump : mt7915_coredump) (hsz : 20 ≤ A.sizeof_fw_context)
    (hzero : dump.fw_context = "" ∧ dump.context_idx = 0 ∧ dump.context_handler = 0) :
    let count := u32 (dev.reg R.MT_FW_CIRQ_COUNT)
    let cirq_idx := if dev.chip = 0x7915 then u32 (dev.reg R.MT_FW_CIRQ_IDX) / 2 ^ 16 % 2 ^ 16
                    else u32 (dev.reg R.MT_FW_CIRQ_IDX) % 2 ^ 16
    let lisr := u32 (dev.reg R.MT_FW_CIRQ_LISR)
    let idx := u32 (dev.reg R.MT_FW_TASK_IDX)
    let id := u32 (dev.reg R.MT_FW_TASK_ID)
    let d := (mt7915_coredump_fw_context A R dev MT76_RAM_TYPE_WM dump).2
    (count = 0 → d.fw_context = "(context) interrupt" ∧ d.context_idx = cirq_idx ∧
      d.context_handler = lisr) ∧
    (count ≠ 0 →
      (d.fw_context = "(context) idle" ↔ (id = 0 ∧ idx = 3)) ∧
      (id = 0 ∧ idx = 3 → d.context_idx = 0 ∧ d.context_handler = 0) ∧
      (d.fw_context = "(context) task" ↔ (id ≠ 0 ∧ idx ≠ 3)) ∧
      (id ≠ 0 ∧ idx ≠ 3 → d.context_idx = idx ∧ d.context_handler = id) ∧
      ((id = 0 ∧ idx ≠ 3) ∨ (id ≠ 0 ∧ idx = 3) →
        d.fw_context = "" ∧ d.context_idx = 0 ∧ d.context_handler = 0)) := by
  intro count cirq_idx lisr idx id d
  obtain ⟨hz1, hz2, hz3⟩ := hzero
  have hWM : ¬ MT76_RAM_TYPE_WM = MT76_RAM_TYPE_WA := by decide
  have s1 : strscpy dump.fw_context "(context) interrupt" A.sizeof_fw_context
      = "(context) interrupt" :=
    strscpy_fits _ _ _ (by have : "(context) interrupt".length = 19 := by decide
                           omega)
  have s2 : strscpy dump.fw_context "(context) idle" A.sizeof_fw_context = "(context) idle" :=
    strscpy_fits _ _ _ (by have : "(context) idle".length = 14 := by decide
                           omega)
  have s3 : strscpy dump.fw_context "(context) task" A.sizeof_fw_context = "(context) task" :=
    strscpy_fits _ _ _ (by have : "(context) task".length = 14 := by decide
                           omega)
  have d1 : ("(context) idle" : String) ≠ "(context) task" := by decide
  have d2 : ("(context) idle" : String) ≠ "" := by decide
  have d3 : ("(context) task" : String) ≠ "" := by decide
  have hd : d = (mt7915_coredump_fw_context A R dev MT76_RAM_TYPE_WM dump).2 := rfl
  unfold mt7915_coredump_fw_context at hd
  simp only [if_neg hWM, mt76_get_field, mt76_rr, ite_pair_snd, is_mt7915, mt76_chip,
    FIELD_GET_15_0, FIELD_GET_31_16, beq_iff_eq, s1, s2, s3] at hd
  constructor
  · intro hc
    have hc' : u32 (dev.reg R.MT_FW_CIRQ_COUNT) = 0 := hc
    rw [if_pos hc'] at hd
    rw [hd]
    exact ⟨rfl, rfl, rfl⟩
  · intro hc
    have hc' : ¬ u32 (dev.reg R.MT_FW_CIRQ_COUNT) = 0 := hc
    rw [if_neg hc'] at hd
    by_cases hi : u32 (dev.reg R.MT_FW_TASK_ID) = 0 ∧ u32 (dev.reg R.MT_FW_TASK_IDX) = 3
    · rw [if_pos hi] at hd
      rw [hd]
      simp only [id, idx, hz2, hz3, hi, d1]
      simp
    · rw [if_neg hi] at hd
      by_cases ht : u32 (dev.reg R.MT_FW_TASK_ID) ≠ 0 ∧ u32 (dev.reg R.MT_FW_TASK_IDX) ≠ 3
      · rw [if_pos ht] at hd
        rw [hd]
        simp only [id, idx, d1.symm, hi, ht]
        simp
        exact ht
      · rw [if_neg ht] at hd
        rw [hd]
        simp only [id, idx, hz1, hz2, hz3, hi, ht, d2.symm, d3.symm]
        simp

theorem fw_context_classification_witness :
    20 ≤ A0.sizeof_fw_context ∧
    ((zero_dump A0).fw_context = "" ∧ (zero_dump A0).context_idx = 0 ∧
      (zero_dump A0).context_handler = 0) ∧
    (mt7915_coredump_fw_context A0 R0 D_task MT76_RAM_TYPE_WM (zero_dump A0)).2.fw_context
      = "(context) task" ∧
    (mt7915_coredump_fw_context A0 R0 D_task MT76_RAM_TYPE_WM (zero_dump A0)).2.context_idx = 1 ∧
    (mt7915_coredump_fw_context A0 R0 D_task MT76_RAM_TYPE_WM (zero_dump A0)).2.context_handler
      = 7 :=
  ⟨by decide, ⟨rfl, rfl, rfl⟩,
    ((fw_context_classification A0 R0 D_task (zero_dump A0) (by decide) ⟨rfl, rfl, rfl⟩).2
      (by decide)).2.2.1.mpr ⟨by decide, by decide⟩,
    (((fw_context_classification A0 R0 D_task (zero_dump A0) (by decide) ⟨rfl, rfl, rfl⟩).2
      (by decide)).2.2.2.1 ⟨by decide, by decide⟩).1,
    (((fw_context_classification A0 R0 D_task (zero_dump A0) (by decide) ⟨rfl, rfl, rfl⟩).2
      (by decide)).2.2.2.1 ⟨by decide, by decide⟩).2⟩

/-! ## State extractor: ring sampling -/

theorem ring_slots_length (n k y : Nat) : (ring_slots n k y).length = k := by
  induction k generalizing y with
  | zero => rfl
  | succ k ih => simp [ring_slots, ih]

/-- The wrap test comes after the read: started at the last slot `n - 1`, a
sampling loop of at least two iterations uses slot `n` next, and then slot 1. -/
theorem ring_slots_from_last (n k : Nat) (hn : 0 < n) (h32 : n < 2 ^ 32) :
    ring_slots n (k + 2) (n - 1) = (n - 1) :: n :: ring_slots n k 1 := by
  have h1 : ¬ (n - 1 ≥ n) := by omega
  have h2 : u32 (n - 1 + 1) = n := by
    unfold u32
    rw [Nat.sub_add_cancel hn, Nat.mod_eq_of_lt h32]
  have h3 : u32 (0 + 1) = 1 := by decide
  simp only [ring_slots, if_neg h1, h2, ge_iff_le, le_refl, if_true, h3]

theorem sched_loop_dev (A : Abi) (base n k y : Nat) (dev : Dev) (dump : mt7915_coredump) :
    (sched_loop A base n k y dev dump).1 =
      { dev with log := (dev.log ++ (ring_slots n k y).map
          (fun y => BusOp.memcpy_fromio DumpBuf.sched (u32 (base + 0xc + y * 12)) A.sizeof_sched)) } := by
  induction k generalizing y dev dump with
  | zero => simp [sched_loop, ring_slots]
  | succ k ih =>
    simp only [sched_loop, mt7915_memcpy_fromio, ring_slots, List.map_cons]
    rw [ih]
    simp

theorem irq_loop_dev (A : Abi) (base n k y : Nat) (dev : Dev) (dump : mt7915_coredump) :
    (irq_loop A base n k y dev dump).1 =
      { dev with log := (dev.log ++ (ring_slots n k y).map
          (fun y => BusOp.memcpy_fromio DumpBuf.irq (u32 (base + 0x4 + y * 16)) A.sizeof_irq)) } := by
  induction k generalizing y dev dump with
  | zero => simp [irq_loop, ring_slots]
  | succ k ih =>
    simp only [irq_loop, mt7915_memcpy_fromio, ring_slots, List.map_cons]
    rw [ih]
    simp

theorem block_reads_map_same (buf : DumpBuf) (f : Nat → Nat) (sz : Nat) (l : List Nat) :
    block_reads buf (l.map (fun y => BusOp.memcpy_fromio buf (f y) sz)) = l.length := by
  induction l with
  | nil => rfl
  | cons a l ih =>
    simp only [block_reads] at ih
    simp [block_reads, is_block_read, ih]

theorem block_reads_map_other (buf b : DumpBuf) (hne : b ≠ buf) (f : Nat → Nat) (sz : Nat)
    (l : List Nat) :
    block_reads buf (l.map (fun y => BusOp.memcpy_fromio b (f y) sz)) = 0 := by
  induction l with
  | nil => rfl
  | cons a l ih =>
    simp only [block_reads] at ih
    simp [block_reads, is_block_read, ih, hne]

theorem block_reads_append (buf : DumpBuf) (l1 l2 : List BusOp) :
    block_reads buf (l1 ++ l2) = block_reads buf l1 + block_reads buf l2 := by
  simp [block_reads]

theorem clamp_eq_min (n : Nat) : (if n > 60 then 60 else n) = min n 60 := by
  split_ifs <;> omega

/-- C9: in `mt7915_coredump_fw_trace` for type WM with exception active, the
accesses added to the log hold exactly `min count 60` block reads into
`dump->sched` and `min count 60` block reads into `dump->irq`, `count` being
the 8-bit sample-count field of the scheduler, respectively interrupt, info
register (bits 15:8 on hardware 0x7915, bits 7:0 otherwise): 60 reads for a
count above 60, none for a count of 0. With exception inactive no block read
is made, and `last_msg_id`, `eint_info_idx`, `irq_info_idx` and
`sched_info_idx` are recorded all the same. -/
theorem fw_trace_block_reads (A : Abi) (R : RegMap) (dev : Dev) (dump : mt7915_coredump) :
    let eint := u32 (dev.reg R.MT_FW_EINT_INFO)
    let irq := u32 (dev.reg (u32 (R.MT_FW_EINT_INFO + 0x8)))
    let sch := u32 (dev.reg R.MT_FW_SCHED_INFO)
    let sched_count := if dev.chip = 0x7915 then sch / 2 ^ 8 % 2 ^ 8 else sch % 2 ^ 8
    let irq_count := if dev.chip = 0x7915 then irq / 2 ^ 8 % 2 ^ 8 else irq % 2 ^ 8
    let active := mt7915_coredump_fw_trace A R dev MT76_RAM_TYPE_WM dump true
    let inactive := mt7915_coredump_fw_trace A R dev MT76_RAM_TYPE_WM dump false
    (∃ ops, active.1.log = dev.log ++ ops ∧
      block_reads DumpBuf.sched ops = min sched_count 60 ∧
      block_reads DumpBuf.irq ops = min irq_count 60) ∧
    (∃ ops, inactive.1.log = dev.log ++ ops ∧
      block_reads DumpBuf.sched ops = 0 ∧ block_reads DumpBuf.irq ops = 0) ∧
    inactive.2.last_msg_id = u32 (dev.reg R.MT_FW_LAST_MSG_ID) ∧
    inactive.2.eint_info_idx =
      (if dev.chip = 0x7915 then eint % 2 ^ 8 else eint / 2 ^ 8 % 2 ^ 8) ∧
    inactive.2.irq_info_idx =
      (if dev.chip = 0x7915 then irq % 2 ^ 8 else irq / 2 ^ 16 % 2 ^ 8) ∧
    inactive.2.sched_info_idx =
      (if dev.chip = 0x7915 then sch % 2 ^ 8 else sch / 2 ^ 8 % 2 ^ 8) := by
  intro eint irq sch sched_count irq_count active inactive
  have hWM : ¬ MT76_RAM_TYPE_WM = MT76_RAM_TYPE_WA := by decide
  have ha : active = mt7915_coredump_fw_trace A R dev MT76_RAM_TYPE_WM dump true := rfl
  have hi : inactive = mt7915_coredump_fw_trace A R dev MT76_RAM_TYPE_WM dump false := rfl
  unfold mt7915_coredump_fw_trace at ha hi
  simp only [if_neg hWM, mt76_get_field, mt76_rr, ite_pair_snd, is_mt7915, mt76_chip,
    FIELD_GET_7_0, FIELD_GET_15_8, FIELD_GET_23_16, beq_iff_eq, if_true, clamp_eq_min,
    irq_loop_dev, sched_loop_dev] at ha
  simp only [if_neg hWM, mt76_get_field, mt76_rr, ite_pair_snd, is_mt7915, mt76_chip,
    FIELD_GET_7_0, FIELD_GET_15_8, FIELD_GET_23_16, beq_iff_eq, Bool.false_eq_true,
    if_false] at hi
  refine ⟨?_, ?_, ?_, ?_, ?_, ?_⟩
  · rw [ha]
    simp only [irq_loop_dev, sched_loop_dev, List.append_assoc]
    refine ⟨_, rfl, ?_, ?_⟩
    · simp only [block_reads_append, block_reads_map_same, ring_slots_length]
      rw [block_reads_map_other _ _ (by decide)]
      simp [block_reads, is_block_read]
      rfl
    · simp only [block_reads_append, block_reads_map_same, ring_slots_length]
      rw [block_reads_map_other _ _ (by decide)]
      simp [block_reads, is_block_read]
      rfl
  · rw [hi]
    refine ⟨_, by simp only [List.append_assoc]; rfl, ?_, ?_⟩ <;>
      simp [block_reads, is_block_read]
  · rw [hi]
  · rw [hi]
  · rw [hi]
  · rw [hi]

/-- C8: with exception active, sample count 60 and start index 59 on hardware
0x7915, the scheduler sampling loop of `mt7915_coredump_fw_trace` uses the
slots 59, 60, 1, 2, ..., 58: its second block read is at device offset
`MT_FW_EINT_INFO + 0xc + 60 * 12`, slot 60, past slot 59. -/
theorem fw_trace_reads_slot_60 :
    ring_slots 60 60 59 = 59 :: 60 :: (List.range 58).map (fun i => i + 1) ∧
    BusOp.memcpy_fromio DumpBuf.sched (R0.MT_FW_EINT_INFO + 0xc + 60 * 12) A0.sizeof_sched ∈
      (mt7915_coredump_fw_trace A0 R0 D_wrap MT76_RAM_TYPE_WM (zero_dump A0) true).1.log := by
  constructor
  · decide
  · decide


/-! ## Crash-data store: teardown -/

theorem unregister_loop_succ_ok (k i : Nat) (s s' : Coredump)
    (h : unregister_loop (k + 1) i s = Except.ok s') :
    ∃ heap, unregister_loop k (i + 1)
      { crash_data := s.crash_data.set i none, heap := heap } = Except.ok s' := by
  rw [unregister_loop] at h
  simp only [bind, Except.bind] at h
  repeat' split at h
  all_goals first | exact ⟨_, h⟩ | exact absurd h (by simp)

theorem unregister_loop_zero_ok (i : Nat) (s s' : Coredump)
    (h : unregister_loop 0 i s = Except.ok s') : s' = s := by
  rw [unregister_loop] at h
  cases h
  rfl

theorem unregister_loop_null (k i : Nat) (s : Coredump)
    (h : s.crash_data.getD i none = none) :
    unregister_loop (k + 1) i s = Except.error Fault.null_deref := by
  rw [unregister_loop]
  simp only [h, load_crash_data, bind, Except.bind]

/-- After a call of `mt7915_coredump_unregister` that returns, a second call
dereferences the `NULL` holder of the first type. -/
theorem unregister_after_unregister (s s' : Coredump)
    (h : mt7915_coredump_unregister s = Except.ok s') :
    mt7915_coredump_unregister s' = Except.error Fault.null_deref := by
  unfold mt7915_coredump_unregister MT76_RAM_TYPE_MAX at *
  obtain ⟨h1, hs1⟩ := unregister_loop_succ_ok 1 0 s s' h
  obtain ⟨h2, hs2⟩ := unregister_loop_succ_ok 0 1 _ s' hs1
  have hs := unregister_loop_zero_ok _ _ _ hs2
  apply unregister_loop_null
  rw [hs]
  cases s.crash_data <;> simp

/-- C10: a first call of `mt7915_coredump_unregister` on a registered state
releases both holders and the buffer and leaves both pointers `NULL`; a second
call right after it dereferences the `NULL` holder of the first type. -/
theorem unregister_twice_null_deref :
    mt7915_coredump_unregister S1 =
      Except.ok { crash_data := [none, none], heap := { objs := [], next := 4, oom := [] } } ∧
    mt7915_coredump_unregister
      { crash_data := [none, none], heap := { objs := [], next := 4, oom := [] } } =
      Except.error Fault.null_deref := by
  constructor
  · rfl
  · rfl


/-! ## Crash-data store: registration -/

/-- C11: with snapshot capture enabled and a hardware identifier outside the
three catalogs (0x7981 here), `mt7915_coredump_register` returns 0 from the
iteration of type WM, whose snapshot size is 0, before the holder of type WA
is allocated: `dev->coredump.crash_data[MT76_RAM_TYPE_WA]` stays `NULL`, and a
following `mt7915_coredump_unregister` dereferences it. -/
theorem register_early_return_leaves_null :
    mt7915_coredump_register A0 0x7981 true S0 =
      Except.ok (0,
        { crash_data := [some 1, none],
          heap := { objs := [(1, Obj.crash_data zero_crash_data)], next := 2, oom := [] } }) ∧
    mt7915_coredump_unregister
        { crash_data := [some 1, none],
          heap := { objs := [(1, Obj.crash_data zero_crash_data)], next := 2, oom := [] } } =
      Except.error Fault.null_deref := by
  constructor
  · rfl
  · rfl


/-- For the three recognised hardware identifiers with snapshot capture
enabled, and for every identifier with snapshot capture disabled, registration
from the unregistered state returns 0 with a holder for both types. -/
theorem register_recognised_has_holders :
    register_outcome (mt7915_coredump_register A0 0x7915 true S0) = some (0, [some 1, some 3]) ∧
    register_outcome (mt7915_coredump_register A0 0x7916 true S0) = some (0, [some 1, some 3]) ∧
    register_outcome (mt7915_coredump_register A0 0x7986 true S0) = some (0, [some 1, some 3]) ∧
    (∀ (A : Abi) (chip : Nat),
      register_outcome (mt7915_coredump_register A chip false S0) =
        some (0, [some 1, some 2])) := by
  refine ⟨?_, ?_, ?_, ?_⟩
  · rfl
  · rfl
  · rfl
  · intro A chip
    rfl

/-! ## State extractor: type WA -/

/-- C12: for the RAM-image type WA each of `mt7915_coredump_fw_state`,
`fw_trace`, `fw_task`, `fw_context` and `fw_stack` returns the device as it
found it (same register contents, no access added to the log: no register
read, no register write, no block read) and the dump as it found it, so every
decoded-state member keeps its zero-initialised value; `fw_state` leaves the
exception flag as it was, and the later steps do nothing whatever value it
holds. The same holds for the five calls made in a row by the assembler. -/
theorem wa_extractor_skipped (A : Abi) (R : RegMap) (dev : Dev) (dump : mt7915_coredump)
    (exception : Bool) :
    mt7915_coredump_fw_state A R dev MT76_RAM_TYPE_WA dump exception = (dev, dump, exception) ∧
    mt7915_coredump_fw_trace A R dev MT76_RAM_TYPE_WA dump exception = (dev, dump) ∧
    mt7915_coredump_fw_task A R dev MT76_RAM_TYPE_WA dump = (dev, dump) ∧
    mt7915_coredump_fw_context A R dev MT76_RAM_TYPE_WA dump = (dev, dump) ∧
    mt7915_coredump_fw_stack R dev MT76_RAM_TYPE_WA dump exception = (dev, dump) ∧
    build_fw_steps A R dev MT76_RAM_TYPE_WA dump exception = (dev, dump) ∧
    (build_fw_steps A R dev MT76_RAM_TYPE_WA (zero_dump A) exception).2 = zero_dump A := by
  have h1 : mt7915_coredump_fw_state A R dev MT76_RAM_TYPE_WA dump exception
      = (dev, dump, exception) := by
    unfold mt7915_coredump_fw_state; rw [if_pos rfl]
  have h2 : ∀ d m e, mt7915_coredump_fw_trace A R d MT76_RAM_TYPE_WA m e = (d, m) := by
    intro d m e; unfold mt7915_coredump_fw_trace; simp only [if_pos]
  have h3 : ∀ d m, mt7915_coredump_fw_task A R d MT76_RAM_TYPE_WA m = (d, m) := by
    intro d m; unfold mt7915_coredump_fw_task; simp only [if_pos]
  have h4 : ∀ d m, mt7915_coredump_fw_context A R d MT76_RAM_TYPE_WA m = (d, m) := by
    intro d m; unfold mt7915_coredump_fw_context; rw [if_pos rfl]
  have h5 : ∀ d m e, mt7915_coredump_fw_stack R d MT76_RAM_TYPE_WA m e = (d, m) := by
    intro d m e; unfold mt7915_coredump_fw_stack; rw [if_pos rfl]
  have h0 : ∀ d m e, mt7915_coredump_fw_state A R d MT76_RAM_TYPE_WA m e = (d, m, e) := by
    intro d m e; unfold mt7915_coredump_fw_state; rw [if_pos rfl]
  have h6 : ∀ m, build_fw_steps A R dev MT76_RAM_TYPE_WA m exception = (dev, m) := by
    intro m; unfold build_fw_steps; simp only [h0, h2, h3, h4, h5]
  exact ⟨h1, h2 _ _ _, h3 _ _, h4 _ _, h5 _ _ _, h6 _, by rw [h6]⟩

/-! ## State extractor: slots of the ring sampling -/

/-- C13: with exception active on hardware 0x7916, sample count 3 and start
index 1, the three block reads of the scheduler ring come from the slots 1, 2
and 3, at the offsets `MT_FW_EINT_INFO + 0xc + y * 12`; the third read is not
from slot `(1 + 2) mod 3 = 0`. -/
theorem fw_trace_slots_not_modulo :
    (mt7915_coredump_fw_trace A0 R0 D_ring3 MT76_RAM_TYPE_WM (zero_dump A0) true).2.sched_info_idx
      = 1 ∧
    ring_slots 3 3 1 = [1, 2, 3] ∧
    (mt7915_coredump_fw_trace A0 R0 D_ring3 MT76_RAM_TYPE_WM (zero_dump A0) true).1.log =
      [ BusOp.rr R0.MT_FW_LAST_MSG_ID, BusOp.rr R0.MT_FW_EINT_INFO,
        BusOp.rr (R0.MT_FW_EINT_INFO + 0x8), BusOp.rr R0.MT_FW_SCHED_INFO,
        BusOp.memcpy_fromio DumpBuf.sched (R0.MT_FW_EINT_INFO + 0xc + 1 * 12) A0.sizeof_sched,
        BusOp.memcpy_fromio DumpBuf.sched (R0.MT_FW_EINT_INFO + 0xc + 2 * 12) A0.sizeof_sched,
        BusOp.memcpy_fromio DumpBuf.sched (R0.MT_FW_EINT_INFO + 0xc + 3 * 12) A0.sizeof_sched ] ∧
    (1 + 2) % 3 ≠ 3 := by
  refine ⟨?_, ?_, ?_, ?_⟩
  · rfl
  · rfl
  · decide
  · decide

/-! ## State extractor: contents of the ring arrays -/

theorem sched_loop_eq (A : Abi) (base n k y : Nat) (dev : Dev) (dump : mt7915_coredump) :
    sched_loop A base n k y dev dump =
      ({ dev with log := (dev.log ++ (ring_slots n k y).map
          (fun y => BusOp.memcpy_fromio DumpBuf.sched (u32 (base + 0xc + y * 12)) A.sizeof_sched)) },
       { dump with sched := (((ring_slots n k y).getLast?.map
          (fun y => dev.io (u32 (base + 0xc + y * 12)) A.sizeof_sched)).getD dump.sched) }) := by
  induction k generalizing y dev dump with
  | zero => simp [sched_loop, ring_slots]
  | succ k ih =>
    simp only [sched_loop, mt7915_memcpy_fromio, ring_slots, List.map_cons]
    rw [ih]
    cases k with
    | zero => simp [ring_slots]
    | succ k =>
      simp only [ring_slots, List.getLast?_cons_cons, List.map_cons, List.append_assoc,
        List.singleton_append]
      rfl

theorem irq_loop_eq (A : Abi) (base n k y : Nat) (dev : Dev) (dump : mt7915_coredump) :
    irq_loop A base n k y dev dump =
      ({ dev with log := (dev.log ++ (ring_slots n k y).map
          (fun y => BusOp.memcpy_fromio DumpBuf.irq (u32 (base + 0x4 + y * 16)) A.sizeof_irq)) },
       { dump with irq := (((ring_slots n k y).getLast?.map
          (fun y => dev.io (u32 (base + 0x4 + y * 16)) A.sizeof_irq)).getD dump.irq) }) := by
  induction k generalizing y dev dump with
  | zero => simp [irq_loop, ring_slots]
  | succ k ih =>
    simp only [irq_loop, mt7915_memcpy_fromio, ring_slots, List.map_cons]
    rw [ih]
    cases k with
    | zero => simp [ring_slots]
    | succ k =>
      simp only [ring_slots, List.getLast?_cons_cons, List.map_cons, List.append_assoc,
        List.singleton_append]
      rfl

theorem fw_trace_active (A : Abi) (R : RegMap) (dev : Dev) (dump : mt7915_coredump) :
    mt7915_coredump_fw_trace A R dev MT76_RAM_TYPE_WM dump true =
      ({ dev with log := (dev.log ++ (fw_trace_index_ops R ++ (sched_ops A R dev ++ irq_ops A R dev))) },
       { dump with
          last_msg_id := u32 (dev.reg R.MT_FW_LAST_MSG_ID)
          eint_info_idx :=
            (if dev.chip = 0x7915 then u32 (dev.reg R.MT_FW_EINT_INFO) % 2 ^ 8
             else u32 (dev.reg R.MT_FW_EINT_INFO) / 2 ^ 8 % 2 ^ 8)
          irq_info_idx := irq_start R dev
          sched_info_idx := sched_start R dev
          trace_sched := strscpy dump.trace_sched "(sched_info) id, time" A.sizeof_trace_sched
          sched := (((ring_slots (sched_n R dev) (sched_n R dev) (sched_start R dev)).getLast?.map
            (fun y => dev.io (u32 (R.MT_FW_EINT_INFO + 0xc + y * 12)) A.sizeof_sched)).getD
              dump.sched)
          trace_irq := strscpy dump.trace_irq "(irq_info) id, time" A.sizeof_trace_irq
          irq := (((ring_slots (irq_n R dev) (irq_n R dev) (irq_start R dev)).getLast?.map
            (fun y => dev.io (u32 (R.MT_FW_EINT_INFO + 0x4 + y * 16)) A.sizeof_irq)).getD
              dump.irq) }) := by
  have hWM : ¬ MT76_RAM_TYPE_WM = MT76_RAM_TYPE_WA := by decide
  unfold mt7915_coredump_fw_trace
  simp only [if_neg hWM, mt76_get_field, mt76_rr, ite_pair_snd, is_mt7915, mt76_chip,
    FIELD_GET_7_0, FIELD_GET_15_8, FIELD_GET_23_16, beq_iff_eq, if_true, clamp_eq_min,
    irq_loop_eq, sched_loop_eq, fw_trace_index_ops, sched_ops, irq_ops, sched_n, sched_start,
    irq_n, irq_start, List.append_assoc, List.singleton_append, List.cons_append, List.nil_append]

theorem fw_trace_inactive (A : Abi) (R : RegMap) (dev : Dev) (dump : mt7915_coredump) :
    mt7915_coredump_fw_trace A R dev MT76_RAM_TYPE_WM dump false =
      ({ dev with log := (dev.log ++ fw_trace_index_ops R) },
       { dump with
          last_msg_id := u32 (dev.reg R.MT_FW_LAST_MSG_ID)
          eint_info_idx :=
            (if dev.chip = 0x7915 then u32 (dev.reg R.MT_FW_EINT_INFO) % 2 ^ 8
             else u32 (dev.reg R.MT_FW_EINT_INFO) / 2 ^ 8 % 2 ^ 8)
          irq_info_idx := irq_start R dev
          sched_info_idx := sched_start R dev }) := by
  have hWM : ¬ MT76_RAM_TYPE_WM = MT76_RAM_TYPE_WA := by decide
  unfold mt7915_coredump_fw_trace
  simp only [if_neg hWM, mt76_get_field, mt76_rr, ite_pair_snd, is_mt7915, mt76_chip,
    FIELD_GET_7_0, FIELD_GET_15_8, FIELD_GET_23_16, beq_iff_eq, Bool.false_eq_true, if_false,
    fw_trace_index_ops, sched_start, irq_start, List.append_assoc, List.singleton_append,
    List.cons_append, List.nil_append]

/-- C16: in `mt7915_coredump_fw_trace` for type WM with exception active, every
block read of the scheduler loop is a read of `sizeof(dump->sched)` bytes into
the start of `dump->sched`, and every block read of the interrupt loop one of
`sizeof(dump->irq)` bytes into the start of `dump->irq`, whatever the
iteration; after the loop the array holds the block read in the last
iteration, from `MT_FW_EINT_INFO + 0xc + y * 12`, respectively
`MT_FW_EINT_INFO + 0x4 + y * 16`, for the last slot `y` used, and nothing of
the earlier samples; with a sample count of 0 the array is left as it was,
all zero in a fresh dump. -/
theorem fw_trace_last_block (A : Abi) (R : RegMap) (dev : Dev) (dump : mt7915_coredump) :
    let base := R.MT_FW_EINT_INFO
    let irq := u32 (dev.reg (u32 (base + 0x8)))
    let sch := u32 (dev.reg R.MT_FW_SCHED_INFO)
    let sched_count := min (if dev.chip = 0x7915 then sch / 2 ^ 8 % 2 ^ 8 else sch % 2 ^ 8) 60
    let sched_idx := if dev.chip = 0x7915 then sch % 2 ^ 8 else sch / 2 ^ 8 % 2 ^ 8
    let irq_count := min (if dev.chip = 0x7915 then irq / 2 ^ 8 % 2 ^ 8 else irq % 2 ^ 8) 60
    let irq_idx := if dev.chip = 0x7915 then irq % 2 ^ 8 else irq / 2 ^ 16 % 2 ^ 8
    let sched_slots := ring_slots sched_count sched_count sched_idx
    let irq_slots := ring_slots irq_count irq_count irq_idx
    let active := mt7915_coredump_fw_trace A R dev MT76_RAM_TYPE_WM dump true
    active.1.log = dev.log ++
      ([BusOp.rr R.MT_FW_LAST_MSG_ID, BusOp.rr base, BusOp.rr (u32 (base + 0x8)),
        BusOp.rr R.MT_FW_SCHED_INFO] ++
       (sched_slots.map (fun y =>
          BusOp.memcpy_fromio DumpBuf.sched (u32 (base + 0xc + y * 12)) A.sizeof_sched) ++
        irq_slots.map (fun y =>
          BusOp.memcpy_fromio DumpBuf.irq (u32 (base + 0x4 + y * 16)) A.sizeof_irq))) ∧
    active.2.sched = ((sched_slots.getLast?.map
      (fun y => dev.io (u32 (base + 0xc + y * 12)) A.sizeof_sched)).getD dump.sched) ∧
    active.2.irq = ((irq_slots.getLast?.map
      (fun y => dev.io (u32 (base + 0x4 + y * 16)) A.sizeof_irq)).getD dump.irq) ∧
    (sched_count = 0 → active.2.sched = dump.sched) ∧
    (irq_count = 0 → active.2.irq = dump.irq) ∧
    (mt7915_coredump_fw_trace A R dev MT76_RAM_TYPE_WM (zero_dump A) true).2.sched =
      ((sched_slots.getLast?.map
        (fun y => dev.io (u32 (base + 0xc + y * 12)) A.sizeof_sched)).getD
          (List.replicate A.sizeof_sched 0)) := by
  intro base irq sch sched_count sched_idx irq_count irq_idx sched_slots irq_slots active
  have ha : active = _ := fw_trace_active A R dev dump
  have hz : mt7915_coredump_fw_trace A R dev MT76_RAM_TYPE_WM (zero_dump A) true = _ :=
    fw_trace_active A R dev (zero_dump A)
  have h2 : active.2.sched = ((sched_slots.getLast?.map
      (fun y => dev.io (u32 (base + 0xc + y * 12)) A.sizeof_sched)).getD dump.sched) := by
    rw [ha]; rfl
  have h3 : active.2.irq = ((irq_slots.getLast?.map
      (fun y => dev.io (u32 (base + 0x4 + y * 16)) A.sizeof_irq)).getD dump.irq) := by
    rw [ha]; rfl
  refine ⟨?_, h2, h3, ?_, ?_, ?_⟩
  · rw [ha]; rfl
  · intro h0
    rw [h2]
    show ((ring_slots sched_count sched_count sched_idx).getLast?.map _).getD _ = _
    rw [h0]
    rfl
  · intro h0
    rw [h3]
    show ((ring_slots irq_count irq_count irq_idx).getLast?.map _).getD _ = _
    rw [h0]
    rfl
  · rw [hz]; rfl

/-! ## State extractor: call-stack recording -/

theorem set_append_cons (pre : List Nat) (r : Nat) (rest : List Nat) (v : Nat) :
    (pre ++ r :: rest).set pre.length v = pre ++ v :: rest := by
  induction pre with
  | nil => rfl
  | cons a pre ih => simp [ih]

theorem store_from_append (vs pre rest : List Nat) (h : vs.length ≤ rest.length) :
    store_from (pre ++ rest) pre.length vs = pre ++ vs ++ rest.drop vs.length := by
  induction vs generalizing pre rest with
  | nil => simp [store_from]
  | cons v vs ih =>
    cases rest with
    | nil => simp at h
    | cons r rest =>
      simp only [List.length_cons, Nat.add_le_add_iff_right] at h
      rw [store_from, set_append_cons]
      have h1 : pre ++ v :: rest = (pre ++ [v]) ++ rest := by simp
      have h2 : pre.length + 1 = (pre ++ [v]).length := by simp
      rw [h1, h2, ih _ _ h]
      simp

theorem store_from_all (l vs : List Nat) (h : l.length = vs.length) :
    store_from l 0 vs = vs := by
  have := store_from_append vs [] l (by omega)
  simp only [List.nil_append, List.length_nil] at this
  rw [this, ← h, List.drop_length, List.append_nil]

theorem pc_cur_loop_eq (R : RegMap) (k i : Nat) (dev : Dev) (dump : mt7915_coredump) :
    pc_cur_loop R k i dev dump =
      ({ dev with log := (dev.log ++ pc_cur_ops R k) },
       { dump with pc_cur := (store_from dump.pc_cur i
          (List.replicate k (u32 (dev.reg R.MT_CONN_DBG_CTL_PC_LOG)))) }) := by
  induction k generalizing i dev dump with
  | zero => simp [pc_cur_loop, pc_cur_ops, store_from]
  | succ k ih =>
    simp only [pc_cur_loop, mt76_rr, usleep_range, pc_cur_ops, List.replicate_succ, store_from]
    rw [ih]
    simp

theorem pc_stack_loop_eq (R : RegMap) (k i : Nat) (dev : Dev) (dump : mt7915_coredump) :
    pc_stack_loop R k i dev dump =
      ({ dev with log := (dev.log ++ (List.range' i k).map
          (fun j => BusOp.rr (u32 (R.MT_MCU_WM_EXCP_PC_LOG + j * 4)))) },
       { dump with pc_stack := (store_from dump.pc_stack i ((List.range' i k).map
          (fun j => u32 (dev.reg (u32 (R.MT_MCU_WM_EXCP_PC_LOG + j * 4)))))) }) := by
  induction k generalizing i dev dump with
  | zero => simp [pc_stack_loop, store_from]
  | succ k ih =>
    simp only [pc_stack_loop, mt76_rr, List.range'_succ, List.map_cons, store_from]
    rw [ih]
    simp

theorem lr_stack_loop_eq (R : RegMap) (k i : Nat) (dev : Dev) (dump : mt7915_coredump) :
    lr_stack_loop R k i dev dump =
      ({ dev with log := (dev.log ++ (List.range' i k).map
          (fun j => BusOp.rr (u32 (R.MT_MCU_WM_EXCP_LR_LOG + j * 4)))) },
       { dump with lr_stack := (store_from dump.lr_stack i ((List.range' i k).map
          (fun j => u32 (dev.reg (u32 (R.MT_MCU_WM_EXCP_LR_LOG + j * 4)))))) }) := by
  induction k generalizing i dev dump with
  | zero => simp [lr_stack_loop, store_from]
  | succ k ih =>
    simp only [lr_stack_loop, mt76_rr, List.range'_succ, List.map_cons, store_from]
    rw [ih]
    simp

/-- The function `mt7915_coredump_fw_stack` for type WM, step by step: each
hypothesis names the result of one step of its body. -/
theorem fw_stack_steps (R : RegMap) (dev : Dev) (dump : mt7915_coredump) (e : Bool)
    (d1 pd d2 d3 qd d4 td d7 : Dev) (pm qm tm : mt7915_coredump) (v3 v4 : Nat)
    (h1 : (mt76_rmw_field dev R.MT_CONN_DBG_CTL_LOG_SEL
      R.MT_CONN_DBG_CTL_PC_LOG_SEL 0x22).2 = d1)
    (h2 : pc_cur_loop R 10 0 d1 dump = (pd, pm))
    (h3 : (if !e then
        (mt76_clear (mt76_clear pd R.MT_MCU_WM_EXCP_PC_CTRL (BIT 0)).2
          R.MT_MCU_WM_EXCP_LR_CTRL (BIT 0)).2
      else pd) = d2)
    (h4 : mt76_rr d2 R.MT_MCU_WM_EXCP_PC_CTRL = (v3, d3))
    (h5 : pc_stack_loop R 32 0 d3
      { pm with pc_dbg_ctrl := v3,
                pc_cur_idx := FIELD_GET R.MT_MCU_WM_EXCP_PC_CTRL_IDX_STATUS v3 } = (qd, qm))
    (h6 : mt76_rr qd R.MT_MCU_WM_EXCP_LR_CTRL = (v4, d4))
    (h7 : lr_stack_loop R 32 0 d4
      { qm with lr_dbg_ctrl := v4,
                lr_cur_idx := FIELD_GET R.MT_MCU_WM_EXCP_LR_CTRL_IDX_STATUS v4 } = (td, tm))
    (h8 : (if !e then
        (mt76_set (mt76_set td R.MT_MCU_WM_EXCP_PC_CTRL (BIT 0)).2
          R.MT_MCU_WM_EXCP_LR_CTRL (BIT 0)).2
      else td) = d7) :
    mt7915_coredump_fw_stack R dev MT76_RAM_TYPE_WM dump e = (d7, tm) := by
  have hWM : ¬ MT76_RAM_TYPE_WM = MT76_RAM_TYPE_WA := by decide
  unfold mt7915_coredump_fw_stack
  rw [if_neg hWM, h1]
  dsimp only
  rw [h2]
  dsimp only
  rw [h3, h4]
  dsimp only
  rw [h5]
  dsimp only
  rw [h6]
  dsimp only
  rw [h7]
  dsimp only
  rw [h8]

theorem pc_cur_ops_eq (R : RegMap) (k : Nat) :
    pc_cur_ops R k = (List.replicate k
      [BusOp.rr R.MT_CONN_DBG_CTL_PC_LOG, BusOp.usleep_range 100 500]).flatten := by
  induction k with
  | zero => rfl
  | succ k ih => simp [pc_cur_ops, List.replicate_succ, ih]

theorem mt76_rmw_snd (dev : Dev) (offset mask val : Nat) :
    (mt76_rmw dev offset mask val).2 =
      { dev with
        reg := rmw_reg dev.reg offset mask val
        log := (dev.log ++ [BusOp.rr offset, BusOp.wr offset (rmw_word dev.reg offset mask val)]) } := by
  simp only [mt76_rmw, mt76_rr, mt76_wr, List.append_assoc, List.singleton_append]
  rfl

/-- The device after `mt7915_coredump_fw_stack` for type WM with exception
active, and the dump. -/
theorem fw_stack_active (R : RegMap) (dev : Dev) (dump : mt7915_coredump) :
    mt7915_coredump_fw_stack R dev MT76_RAM_TYPE_WM dump true =
      (let reg1 := rmw_reg dev.reg R.MT_CONN_DBG_CTL_LOG_SEL R.MT_CONN_DBG_CTL_PC_LOG_SEL
          (FIELD_PREP R.MT_CONN_DBG_CTL_PC_LOG_SEL 0x22)
       ({ dev with
          reg := reg1
          log := (dev.log ++ (stack_sample_ops R dev ++ stack_read_ops R)) },
        { dump with
          pc_cur := store_from dump.pc_cur 0
            (List.replicate 10 (u32 (reg1 R.MT_CONN_DBG_CTL_PC_LOG)))
          pc_dbg_ctrl := u32 (reg1 R.MT_MCU_WM_EXCP_PC_CTRL)
          pc_cur_idx := FIELD_GET R.MT_MCU_WM_EXCP_PC_CTRL_IDX_STATUS
            (u32 (reg1 R.MT_MCU_WM_EXCP_PC_CTRL))
          pc_stack := store_from dump.pc_stack 0 ((List.range 32).map
            (fun j => u32 (reg1 (u32 (R.MT_MCU_WM_EXCP_PC_LOG + j * 4)))))
          lr_dbg_ctrl := u32 (reg1 R.MT_MCU_WM_EXCP_LR_CTRL)
          lr_cur_idx := FIELD_GET R.MT_MCU_WM_EXCP_LR_CTRL_IDX_STATUS
            (u32 (reg1 R.MT_MCU_WM_EXCP_LR_CTRL))
          lr_stack := store_from dump.lr_stack 0 ((List.range 32).map
            (fun j => u32 (reg1 (u32 (R.MT_MCU_WM_EXCP_LR_LOG + j * 4))))) })) := by
  rw [fw_stack_steps R dev dump true _ _ _ _ _ _ _ _ _ _ _ _ _ rfl
    (pc_cur_loop_eq R 10 0 _ dump) rfl rfl (pc_stack_loop_eq R 32 0 _ _) rfl
    (lr_stack_loop_eq R 32 0 _ _) rfl]
  simp only [Bool.not_true, Bool.false_eq_true, if_false,
    mt76_rmw_field, mt76_rmw_snd, mt76_rr, pc_cur_ops_eq, ← List.range_eq_range',
    stack_sample_ops, stack_read_ops, sel_word, List.append_assoc, List.singleton_append,
    List.cons_append, List.nil_append]

/-- The device after `mt7915_coredump_fw_stack` for type WM with exception
not active, and the dump. -/
theorem fw_stack_idle (R : RegMap) (dev : Dev) (dump : mt7915_coredump) :
    mt7915_coredump_fw_stack R dev MT76_RAM_TYPE_WM dump false =
      (let reg1 := rmw_reg dev.reg R.MT_CONN_DBG_CTL_LOG_SEL R.MT_CONN_DBG_CTL_PC_LOG_SEL
          (FIELD_PREP R.MT_CONN_DBG_CTL_PC_LOG_SEL 0x22)
       let reg2 := rmw_reg reg1 R.MT_MCU_WM_EXCP_PC_CTRL (BIT 0) 0
       let reg3 := rmw_reg reg2 R.MT_MCU_WM_EXCP_LR_CTRL (BIT 0) 0
       let reg4 := rmw_reg reg3 R.MT_MCU_WM_EXCP_PC_CTRL 0 (BIT 0)
       let reg5 := rmw_reg reg4 R.MT_MCU_WM_EXCP_LR_CTRL 0 (BIT 0)
       ({ dev with
          reg := reg5
          log := (dev.log ++ (stack_sample_ops R dev ++
            ([BusOp.rr R.MT_MCU_WM_EXCP_PC_CTRL,
              BusOp.wr R.MT_MCU_WM_EXCP_PC_CTRL (rmw_word reg1 R.MT_MCU_WM_EXCP_PC_CTRL (BIT 0) 0),
              BusOp.rr R.MT_MCU_WM_EXCP_LR_CTRL,
              BusOp.wr R.MT_MCU_WM_EXCP_LR_CTRL (rmw_word reg2 R.MT_MCU_WM_EXCP_LR_CTRL (BIT 0) 0)]
             ++ (stack_read_ops R ++
            [BusOp.rr R.MT_MCU_WM_EXCP_PC_CTRL,
              BusOp.wr R.MT_MCU_WM_EXCP_PC_CTRL (rmw_word reg3 R.MT_MCU_WM_EXCP_PC_CTRL 0 (BIT 0)),
              BusOp.rr R.MT_MCU_WM_EXCP_LR_CTRL,
              BusOp.wr R.MT_MCU_WM_EXCP_LR_CTRL
                (rmw_word reg4 R.MT_MCU_WM_EXCP_LR_CTRL 0 (BIT 0))])))) },
        { dump with
          pc_cur := store_from dump.pc_cur 0
            (List.replicate 10 (u32 (reg1 R.MT_CONN_DBG_CTL_PC_LOG)))
          pc_dbg_ctrl := u32 (reg3 R.MT_MCU_WM_EXCP_PC_CTRL)
          pc_cur_idx := FIELD_GET R.MT_MCU_WM_EXCP_PC_CTRL_IDX_STATUS
            (u32 (reg3 R.MT_MCU_WM_EXCP_PC_CTRL))
          pc_stack := store_from dump.pc_stack 0 ((List.range 32).map
            (fun j => u32 (reg3 (u32 (R.MT_MCU_WM_EXCP_PC_LOG + j * 4)))))
          lr_dbg_ctrl := u32 (reg3 R.MT_MCU_WM_EXCP_LR_CTRL)
          lr_cur_idx := FIELD_GET R.MT_MCU_WM_EXCP_LR_CTRL_IDX_STATUS
            (u32 (reg3 R.MT_MCU_WM_EXCP_LR_CTRL))
          lr_stack := store_from dump.lr_stack 0 ((List.range 32).map
            (fun j => u32 (reg3 (u32 (R.MT_MCU_WM_EXCP_LR_LOG + j * 4))))) })) := by
  rw [fw_stack_steps R dev dump false _ _ _ _ _ _ _ _ _ _ _ _ _ rfl
    (pc_cur_loop_eq R 10 0 _ dump) rfl rfl (pc_stack_loop_eq R 32 0 _ _) rfl
    (lr_stack_loop_eq R 32 0 _ _) rfl]
  simp only [Bool.not_false, if_true, mt76_clear, mt76_set,
    mt76_rmw_field, mt76_rmw_snd, mt76_rr, pc_cur_ops_eq, ← List.range_eq_range',
    stack_sample_ops, stack_read_ops, sel_word, List.append_assoc, List.singleton_append,
    List.cons_append, List.nil_append]

theorem land_even (x m : Nat) (h : m % 2 = 0) : (x &&& m) % 2 = 0 := by
  have h0 : (x &&& m).testBit 0 = false := by
    rw [Nat.testBit_and]
    have : m.testBit 0 = false := by
      rw [Nat.testBit_zero]; simp [h]
    rw [this, Bool.and_false]
  rcases Nat.mod_two_eq_zero_or_one (x &&& m) with h1 | h1
  · exact h1
  · rw [Nat.testBit_zero] at h0
    simp [h1] at h0

theorem lor_odd (x y : Nat) (h : x % 2 = 1) : (x ||| y) % 2 = 1 := by
  have h0 : (x ||| y).testBit 0 = true := by
    rw [Nat.testBit_or]
    have : x.testBit 0 = true := by
      rw [Nat.testBit_zero]; simp [h]
    rw [this, Bool.true_or]
  rw [Nat.testBit_zero] at h0
  simpa using h0

theorem u32_mod_two (x : Nat) : u32 x % 2 = x % 2 := by
  unfold u32
  exact Nat.mod_mod_of_dvd x (by norm_num)

theorem rmw_word_clear_bit0 (reg : Nat → Nat) (offset : Nat) :
    rmw_word reg offset (BIT 0) 0 % 2 = 0 := by
  unfold rmw_word
  rw [u32_mod_two, Nat.zero_or]
  exact land_even _ _ (by decide)

theorem rmw_word_set_bit0 (reg : Nat → Nat) (offset : Nat) :
    rmw_word reg offset 0 (BIT 0) % 2 = 1 := by
  unfold rmw_word
  rw [u32_mod_two]
  exact lor_odd _ _ (by decide)

theorem rmw_reg_other (reg : Nat → Nat) (offset mask val a : Nat) (h : a ≠ offset) :
    rmw_reg reg offset mask val a = reg a := by
  unfold rmw_reg
  rw [if_neg h]

theorem rmw_reg_same (reg : Nat → Nat) (offset mask val : Nat) :
    rmw_reg reg offset mask val offset = rmw_word reg offset mask val := by
  unfold rmw_reg
  rw [if_pos rfl]

theorem stack_ops_writes (R : RegMap) (dev : Dev) (a v : Nat)
    (h : BusOp.wr a v ∈ stack_sample_ops R dev ++ stack_read_ops R) :
    a = R.MT_CONN_DBG_CTL_LOG_SEL ∧ v = sel_word R dev := by
  simp [stack_sample_ops, stack_read_ops] at h
  exact h

/-- C14: `mt7915_coredump_fw_stack` for type WM. With exception active the
accesses are the write of the debug-log selector (field
`MT_CONN_DBG_CTL_PC_LOG_SEL` set to 0x22), the 10 samples and the reads of the
control words and log words: the only write is the one to the selector, none
goes to `MT_MCU_WM_EXCP_PC_CTRL` or `MT_MCU_WM_EXCP_LR_CTRL`. With exception
not active, both control registers are written with bit 0 clear after the
samples and before the control words and the 32 + 32 log words are read, and
written with bit 0 set after the last of these reads, so bit 0 of both is set
when the function returns. In both cases the 10 elements of `pc_cur`, the 32
of `pc_stack` and the 32 of `lr_stack` are stored with the words read. The
three arrays have 10, 32 and 32 elements, and the registers written are apart
from the ones the samples and log words are read from. -/
theorem fw_stack_recording (R : RegMap) (dev : Dev) (dump : mt7915_coredump)
    (hlen : dump.pc_cur.length = 10 ∧ dump.pc_stack.length = 32 ∧ dump.lr_stack.length = 32)
    (hd : stack_regs_distinct R) :
    let active := mt7915_coredump_fw_stack R dev MT76_RAM_TYPE_WM dump true
    let idle := mt7915_coredump_fw_stack R dev MT76_RAM_TYPE_WM dump false
    let pc_cur := List.replicate 10 (u32 (dev.reg R.MT_CONN_DBG_CTL_PC_LOG))
    let pc_stack := (List.range 32).map
      (fun i => u32 (dev.reg (u32 (R.MT_MCU_WM_EXCP_PC_LOG + i * 4))))
    let lr_stack := (List.range 32).map
      (fun i => u32 (dev.reg (u32 (R.MT_MCU_WM_EXCP_LR_LOG + i * 4))))
    active.1.log = dev.log ++ (stack_sample_ops R dev ++ stack_read_ops R) ∧
    (∀ a v, BusOp.wr a v ∈ stack_sample_ops R dev ++ stack_read_ops R →
      a = R.MT_CONN_DBG_CTL_LOG_SEL ∧ v = sel_word R dev) ∧
    (∀ v, BusOp.wr R.MT_MCU_WM_EXCP_PC_CTRL v ∉ stack_sample_ops R dev ++ stack_read_ops R ∧
      BusOp.wr R.MT_MCU_WM_EXCP_LR_CTRL v ∉ stack_sample_ops R dev ++ stack_read_ops R) ∧
    (∃ c1 c2 s1 s2,
      idle.1.log = dev.log ++ (stack_sample_ops R dev ++
        ([BusOp.rr R.MT_MCU_WM_EXCP_PC_CTRL, BusOp.wr R.MT_MCU_WM_EXCP_PC_CTRL c1,
          BusOp.rr R.MT_MCU_WM_EXCP_LR_CTRL, BusOp.wr R.MT_MCU_WM_EXCP_LR_CTRL c2] ++
        (stack_read_ops R ++
         [BusOp.rr R.MT_MCU_WM_EXCP_PC_CTRL, BusOp.wr R.MT_MCU_WM_EXCP_PC_CTRL s1,
          BusOp.rr R.MT_MCU_WM_EXCP_LR_CTRL, BusOp.wr R.MT_MCU_WM_EXCP_LR_CTRL s2]))) ∧
      c1 % 2 = 0 ∧ c2 % 2 = 0 ∧ s1 % 2 = 1 ∧ s2 % 2 = 1) ∧
    idle.1.reg R.MT_MCU_WM_EXCP_PC_CTRL % 2 = 1 ∧
    idle.1.reg R.MT_MCU_WM_EXCP_LR_CTRL % 2 = 1 ∧
    active.2.pc_cur = pc_cur ∧ active.2.pc_stack = pc_stack ∧ active.2.lr_stack = lr_stack ∧
    idle.2.pc_cur = pc_cur ∧ idle.2.pc_stack = pc_stack ∧ idle.2.lr_stack = lr_stack := by
  intro active idle pc_cur pc_stack lr_stack
  obtain ⟨hl1, hl2, hl3⟩ := hlen
  obtain ⟨hd1, hd2, hd3, hd4⟩ := hd
  have ha : active = _ := fw_stack_active R dev dump
  have hi : idle = _ := fw_stack_idle R dev dump
  have hcur : ∀ (reg : Nat → Nat), reg R.MT_CONN_DBG_CTL_PC_LOG = dev.reg R.MT_CONN_DBG_CTL_PC_LOG →
      store_from dump.pc_cur 0 (List.replicate 10 (u32 (reg R.MT_CONN_DBG_CTL_PC_LOG))) =
        pc_cur := by
    intro reg h
    rw [store_from_all _ _ (by simp [hl1]), h]
  have hpc : ∀ (reg : Nat → Nat),
      (∀ i, i < 32 → reg (u32 (R.MT_MCU_WM_EXCP_PC_LOG + i * 4)) =
        dev.reg (u32 (R.MT_MCU_WM_EXCP_PC_LOG + i * 4))) →
      store_from dump.pc_stack 0 ((List.range 32).map
        (fun j => u32 (reg (u32 (R.MT_MCU_WM_EXCP_PC_LOG + j * 4))))) = pc_stack := by
    intro reg h
    rw [store_from_all _ _ (by simp [hl2])]
    apply List.map_congr_left
    intro i hi
    rw [h i (List.mem_range.mp hi)]
  have hlr : ∀ (reg : Nat → Nat),
      (∀ i, i < 32 → reg (u32 (R.MT_MCU_WM_EXCP_LR_LOG + i * 4)) =
        dev.reg (u32 (R.MT_MCU_WM_EXCP_LR_LOG + i * 4))) →
      store_from dump.lr_stack 0 ((List.range 32).map
        (fun j => u32 (reg (u32 (R.MT_MCU_WM_EXCP_LR_LOG + j * 4))))) = lr_stack := by
    intro reg h
    rw [store_from_all _ _ (by simp [hl3])]
    apply List.map_congr_left
    intro i hi
    rw [h i (List.mem_range.mp hi)]
  let reg1 := rmw_reg dev.reg R.MT_CONN_DBG_CTL_LOG_SEL R.MT_CONN_DBG_CTL_PC_LOG_SEL
    (FIELD_PREP R.MT_CONN_DBG_CTL_PC_LOG_SEL 0x22)
  let reg2 := rmw_reg reg1 R.MT_MCU_WM_EXCP_PC_CTRL (BIT 0) 0
  let reg3 := rmw_reg reg2 R.MT_MCU_WM_EXCP_LR_CTRL (BIT 0) 0
  let reg4 := rmw_reg reg3 R.MT_MCU_WM_EXCP_PC_CTRL 0 (BIT 0)
  let reg5 := rmw_reg reg4 R.MT_MCU_WM_EXCP_LR_CTRL 0 (BIT 0)
  have e1 : ∀ a, a ≠ R.MT_CONN_DBG_CTL_LOG_SEL → reg1 a = dev.reg a :=
    fun a h => rmw_reg_other _ _ _ _ _ h
  have e3 : ∀ a, a ≠ R.MT_CONN_DBG_CTL_LOG_SEL → a ≠ R.MT_MCU_WM_EXCP_PC_CTRL →
      a ≠ R.MT_MCU_WM_EXCP_LR_CTRL → reg3 a = dev.reg a := by
    intro a h1 h2 h3
    show rmw_reg reg2 _ _ _ a = _
    rw [rmw_reg_other _ _ _ _ _ h3]
    show rmw_reg reg1 _ _ _ a = _
    rw [rmw_reg_other _ _ _ _ _ h2]
    exact e1 a h1
  have a1 : active.1.log = dev.log ++ (stack_sample_ops R dev ++ stack_read_ops R) := by
    rw [ha]
  have a2 : active.2.pc_cur = store_from dump.pc_cur 0
      (List.replicate 10 (u32 (reg1 R.MT_CONN_DBG_CTL_PC_LOG))) := by rw [ha]
  have a3 : active.2.pc_stack = store_from dump.pc_stack 0 ((List.range 32).map
      (fun j => u32 (reg1 (u32 (R.MT_MCU_WM_EXCP_PC_LOG + j * 4))))) := by rw [ha]
  have a4 : active.2.lr_stack = store_from dump.lr_stack 0 ((List.range 32).map
      (fun j => u32 (reg1 (u32 (R.MT_MCU_WM_EXCP_LR_LOG + j * 4))))) := by rw [ha]
  have i1 : idle.1.log = dev.log ++ (stack_sample_ops R dev ++
        ([BusOp.rr R.MT_MCU_WM_EXCP_PC_CTRL,
          BusOp.wr R.MT_MCU_WM_EXCP_PC_CTRL (rmw_word reg1 R.MT_MCU_WM_EXCP_PC_CTRL (BIT 0) 0),
          BusOp.rr R.MT_MCU_WM_EXCP_LR_CTRL,
          BusOp.wr R.MT_MCU_WM_EXCP_LR_CTRL (rmw_word reg2 R.MT_MCU_WM_EXCP_LR_CTRL (BIT 0) 0)] ++
        (stack_read_ops R ++
         [BusOp.rr R.MT_MCU_WM_EXCP_PC_CTRL,
          BusOp.wr R.MT_MCU_WM_EXCP_PC_CTRL (rmw_word reg3 R.MT_MCU_WM_EXCP_PC_CTRL 0 (BIT 0)),
          BusOp.rr R.MT_MCU_WM_EXCP_LR_CTRL,
          BusOp.wr R.MT_MCU_WM_EXCP_LR_CTRL
            (rmw_word reg4 R.MT_MCU_WM_EXCP_LR_CTRL 0 (BIT 0))]))) := by rw [hi]
  have i2 : idle.2.pc_cur = store_from dump.pc_cur 0
      (List.replicate 10 (u32 (reg1 R.MT_CONN_DBG_CTL_PC_LOG))) := by rw [hi]
  have i3 : idle.2.pc_stack = store_from dump.pc_stack 0 ((List.range 32).map
      (fun j => u32 (reg3 (u32 (R.MT_MCU_WM_EXCP_PC_LOG + j * 4))))) := by rw [hi]
  have i4 : idle.2.lr_stack = store_from dump.lr_stack 0 ((List.range 32).map
      (fun j => u32 (reg3 (u32 (R.MT_MCU_WM_EXCP_LR_LOG + j * 4))))) := by rw [hi]
  have i5 : idle.1.reg = reg5 := by rw [hi]
  refine ⟨a1, stack_ops_writes R dev, ?_, ?_, ?_, ?_, ?_, ?_, ?_, ?_, ?_, ?_⟩
  · intro v
    constructor
    · intro h
      exact hd1 (stack_ops_writes R dev _ _ h).1.symm
    · intro h
      exact hd2 (stack_ops_writes R dev _ _ h).1.symm
  · exact ⟨_, _, _, _, i1, rmw_word_clear_bit0 _ _, rmw_word_clear_bit0 _ _,
      rmw_word_set_bit0 _ _, rmw_word_set_bit0 _ _⟩
  · rw [i5]
    show rmw_reg reg4 _ _ _ _ % 2 = 1
    by_cases h : R.MT_MCU_WM_EXCP_PC_CTRL = R.MT_MCU_WM_EXCP_LR_CTRL
    · rw [h, rmw_reg_same]
      exact rmw_word_set_bit0 _ _
    · rw [rmw_reg_other _ _ _ _ _ h]
      show rmw_reg reg3 _ _ _ _ % 2 = 1
      rw [rmw_reg_same]
      exact rmw_word_set_bit0 _ _
  · rw [i5]
    show rmw_reg reg4 _ _ _ _ % 2 = 1
    rw [rmw_reg_same]
    exact rmw_word_set_bit0 _ _
  · rw [a2]
    exact hcur reg1 (e1 _ hd3)
  · rw [a3]
    exact hpc reg1 (fun i hi => e1 _ (hd4 i hi).1)
  · rw [a4]
    exact hlr reg1 (fun i hi => e1 _ (hd4 i hi).2.2.2.1)
  · rw [i2]
    exact hcur reg1 (e1 _ hd3)
  · rw [i3]
    exact hpc reg3 (fun i hi => e3 _ (hd4 i hi).1 (hd4 i hi).2.1 (hd4 i hi).2.2.1)
  · rw [i4]
    exact hlr reg3 (fun i hi =>
      e3 _ (hd4 i hi).2.2.2.1 (hd4 i hi).2.2.2.2.1 (hd4 i hi).2.2.2.2.2)

theorem fw_stack_recording_witness :
    ((zero_dump A0).pc_cur.length = 10 ∧ (zero_dump A0).pc_stack.length = 32 ∧
      (zero_dump A0).lr_stack.length = 32) ∧
    stack_regs_distinct R0 ∧
    (mt7915_coredump_fw_stack R0 D_ident MT76_RAM_TYPE_WM (zero_dump A0) true).1.log =
      D_ident.log ++ (stack_sample_ops R0 D_ident ++ stack_read_ops R0) ∧
    (mt7915_coredump_fw_stack R0 D_ident MT76_RAM_TYPE_WM (zero_dump A0) false).1.reg
      R0.MT_MCU_WM_EXCP_PC_CTRL % 2 = 1 :=
  ⟨⟨rfl, rfl, rfl⟩, by unfold stack_regs_distinct; decide,
    (fw_stack_recording R0 D_ident (zero_dump A0) ⟨rfl, rfl, rfl⟩
      (by unfold stack_regs_distinct; decide)).1,
    (fw_stack_recording R0 D_ident (zero_dump A0) ⟨rfl, rfl, rfl⟩
      (by unfold stack_regs_distinct; decide)).2.2.2.2.1⟩

/-! ## State extractor: the exception flag -/

theorem fw_state_flag (A : Abi) (R : RegMap) (dev : Dev) (dump : mt7915_coredump) (e : Bool) :
    (mt7915_coredump_fw_state A R dev MT76_RAM_TYPE_WM dump e).2.2 =
      decide (except_count R dev ≠ 0) := by
  have hWM : ¬ MT76_RAM_TYPE_WM = MT76_RAM_TYPE_WA := by decide
  unfold mt7915_coredump_fw_state
  simp only [if_neg hWM, mt76_get_field, mt76_rr, ite_pair_snd, is_mt7915, mt76_chip,
    FIELD_GET_7_0, FIELD_GET_15_8, beq_iff_eq, except_count]

theorem fw_state_dev (A : Abi) (R : RegMap) (dev : Dev) (dump : mt7915_coredump) (e : Bool) :
    (mt7915_coredump_fw_state A R dev MT76_RAM_TYPE_WM dump e).1 =
      { dev with log := (dev.log ++ [BusOp.rr R.MT_FW_EXCEPT_TYPE, BusOp.rr R.MT_FW_ASSERT_STAT,
          BusOp.rr R.MT_FW_EXCEPT_COUNT]) } := by
  have hWM : ¬ MT76_RAM_TYPE_WM = MT76_RAM_TYPE_WA := by decide
  unfold mt7915_coredump_fw_state
  simp only [if_neg hWM, mt76_get_field, mt76_rr, ite_pair_snd, is_mt7915, mt76_chip,
    List.append_assoc, List.singleton_append, List.cons_append, List.nil_append]

/-- The five calls of the assembler, step by step: each hypothesis names the
result of one call; the flag `fw_state` returns is the one `fw_trace` and
`fw_stack` receive. -/
theorem build_fw_steps_eq (A : Abi) (R : RegMap) (dev : Dev) (type : Nat)
    (dump : mt7915_coredump) (e0 : Bool) (d1 d2 d3 d4 : Dev) (m1 m2 m3 m4 : mt7915_coredump)
    (ex : Bool)
    (h1 : mt7915_coredump_fw_state A R dev type dump e0 = (d1, m1, ex))
    (h2 : mt7915_coredump_fw_trace A R d1 type m1 ex = (d2, m2))
    (h3 : mt7915_coredump_fw_task A R d2 type m2 = (d3, m3))
    (h4 : mt7915_coredump_fw_context A R d3 type m3 = (d4, m4)) :
    build_fw_steps A R dev type dump e0 = mt7915_coredump_fw_stack R d4 type m4 ex := by
  unfold build_fw_steps
  rw [h1]
  dsimp only
  rw [h2]
  dsimp only
  rw [h3]
  dsimp only
  rw [h4]

/-- C15: for type WM `mt7915_coredump_fw_state` returns the exception flag true
iff the exception count field is not 0, whatever the state and the category;
the flag is false exactly when `fw_state` is "normal"; in the unclassified
case (`count = 1` and `state ≤ 1`) `fw_state` stays empty and the flag is true.
The assembler hands that flag to `fw_trace` and to `fw_stack`: when the count
is not 0 the sampling loops of `fw_trace` run (the log gains the block reads
of both rings, as many as the capped sample counts) and `fw_stack` writes the
debug-log selector only, so call-stack recording is not switched off and on.
The array `fw_state` has room for the longest of the strings. -/
theorem fw_state_exception_flag (A : Abi) (R : RegMap) (dev : Dev) (dump : mt7915_coredump)
    (e0 : Bool) (hsz : 10 ≤ A.sizeof_fw_state) (hzero : dump.fw_state = "") :
    let state := u32 (dev.reg R.MT_FW_ASSERT_STAT) % 2 ^ 8
    let count := if dev.chip = 0x7915 then u32 (dev.reg R.MT_FW_EXCEPT_COUNT) / 2 ^ 8 % 2 ^ 8
                 else u32 (dev.reg R.MT_FW_EXCEPT_COUNT) % 2 ^ 8
    let s := mt7915_coredump_fw_state A R dev MT76_RAM_TYPE_WM dump e0
    let t := mt7915_coredump_fw_trace A R s.1 MT76_RAM_TYPE_WM s.2.1 s.2.2
    let k := mt7915_coredump_fw_task A R t.1 MT76_RAM_TYPE_WM t.2
    let c := mt7915_coredump_fw_context A R k.1 MT76_RAM_TYPE_WM k.2
    let r := build_fw_steps A R dev MT76_RAM_TYPE_WM dump e0
    (s.2.2 = true ↔ count ≠ 0) ∧
    (s.2.2 = false ↔ s.2.1.fw_state = "normal") ∧
    (count = 1 ∧ state ≤ 1 → s.2.1.fw_state = "" ∧ s.2.2 = true) ∧
    r = mt7915_coredump_fw_stack R c.1 MT76_RAM_TYPE_WM c.2 s.2.2 ∧
    (count ≠ 0 →
      t.1.log = s.1.log ++ (fw_trace_index_ops R ++ (sched_ops A R dev ++ irq_ops A R dev)) ∧
      (sched_ops A R dev).length = sched_n R dev ∧
      (irq_ops A R dev).length = irq_n R dev ∧
      r.1.log = c.1.log ++ (stack_sample_ops R c.1 ++ stack_read_ops R) ∧
      ∀ a v, BusOp.wr a v ∈ stack_sample_ops R c.1 ++ stack_read_ops R →
        a = R.MT_CONN_DBG_CTL_LOG_SEL) := by
  intro state count s t k c r
  have hflag : s.2.2 = decide (count ≠ 0) := fw_state_flag A R dev dump e0
  have hstr : s.2.1.fw_state = _ := fw_state_string A R dev dump e0 hsz
  simp only [hzero] at hstr
  change s.2.1.fw_state = (if count = 0 then "normal"
       else if state > 1 ∧ count = 1 ∧ _ = 5 then "assert"
       else if (state > 1 ∧ count = 1) ∨ count > 1 then "exception"
       else "") at hstr
  have hr : r = mt7915_coredump_fw_stack R c.1 MT76_RAM_TYPE_WM c.2 s.2.2 :=
    build_fw_steps_eq A R dev MT76_RAM_TYPE_WM dump e0 s.1 t.1 k.1 c.1 s.2.1 t.2 k.2 c.2 s.2.2
      rfl rfl rfl rfl
  have d1 : ("assert" : String) ≠ "normal" := by decide
  have d2 : ("exception" : String) ≠ "normal" := by decide
  have d3 : ("" : String) ≠ "normal" := by decide
  refine ⟨?_, ?_, ?_, hr, ?_⟩
  · rw [hflag]; simp
  · rw [hflag, hstr]
    by_cases c0 : count = 0
    · simp [c0]
    · simp only [c0, if_false, ne_eq, not_false_eq_true, decide_True, Bool.true_eq_false,
        false_iff]
      split_ifs <;> assumption
  · rintro ⟨h1, h2⟩
    have c0 : count ≠ 0 := by omega
    refine ⟨?_, by rw [hflag]; simp [c0]⟩
    rw [hstr, if_neg c0, if_neg (by omega), if_neg (by omega)]
  · intro c0
    have hf : s.2.2 = true := by rw [hflag]; simp [c0]
    have hs1 : s.1 = _ := fw_state_dev A R dev dump e0
    have ht : t = mt7915_coredump_fw_trace A R s.1 MT76_RAM_TYPE_WM s.2.1 true := by
      show mt7915_coredump_fw_trace A R s.1 MT76_RAM_TYPE_WM s.2.1 s.2.2 = _
      rw [hf]
    have hso : sched_ops A R s.1 = sched_ops A R dev := by rw [hs1]; rfl
    have hio : irq_ops A R s.1 = irq_ops A R dev := by rw [hs1]; rfl
    refine ⟨?_, ?_, ?_, ?_, ?_⟩
    · rw [ht, fw_trace_active, hso, hio]
    · simp [sched_ops, ring_slots_length]
    · simp [irq_ops, ring_slots_length]
    · rw [hr, hf, fw_stack_active]
    · intro a v h
      exact (stack_ops_writes R c.1 a v h).1

theorem fw_state_exception_flag_witness :
    10 ≤ A0.sizeof_fw_state ∧ (zero_dump A0).fw_state = "" ∧
    (mt7915_coredump_fw_state A0 R0 D_unclassified MT76_RAM_TYPE_WM (zero_dump A0)
      false).2.1.fw_state = "" ∧
    (mt7915_coredump_fw_state A0 R0 D_unclassified MT76_RAM_TYPE_WM (zero_dump A0)
      false).2.2 = true :=
  ⟨by decide, rfl,
    ((fw_state_exception_flag A0 R0 D_unclassified (zero_dump A0) false (by decide) rfl).2.2.1
      ⟨by decide, by decide⟩).1,
    ((fw_state_exception_flag A0 R0 D_unclassified (zero_dump A0) false (by decide) rfl).2.2.1
      ⟨by decide, by decide⟩).2⟩

end Mt7915
